import Mathlib

/-!
# Domain-separated signing core of the beacon chain

A shallow embedding of `beacon-chain/core/signing/signing_root.go`.

* A Go `[]byte` is `Slice`: `none` is the nil slice, `some bs` a non-nil slice.
* A Go `[n]byte` is `FixedBytes n`, a list of bytes of length exactly `n`.
* A Go `(T, error)` return is the pair `T × Option Error`; a Go `error` return is
  `Option Error`, with `none` for `nil`.
* The collaborators of the package (SSZ merkleization of `ForkData` and
  `SigningData`, the BLS primitive, the beacon state accessor, the network
  configuration and the function `Domain` of `domain.go`) are parameters.
-/

namespace Signing

/-! ## Data model -/

/-- One byte. -/
abbrev Byte := Fin 256

/-- A Go `[]byte`: `none` is the nil slice, `some bs` is a non-nil slice with contents `bs`. -/
abbrev Slice := Option (List Byte)

/-- The contents of a slice; the nil slice has none. -/
def Slice.bytes : Slice → List Byte
  | none => []
  | some bs => bs

/-- A Go `[n]byte`. -/
abbrev FixedBytes (n : Nat) := { l : List Byte // l.length = n }

/-- The zero value `[n]byte{}`. -/
def FixedBytes.zero (n : Nat) : FixedBytes n := ⟨List.replicate n 0, by simp⟩

/-- The slice expression `a[:]` over an array; it is never nil. -/
def FixedBytes.slice {n : Nat} (a : FixedBytes n) : Slice := some a.val

/-- Go's builtin `copy(dst[:], src)`: the first `min(len(src), n)` bytes of `dst` are
overwritten by those of `src`, the rest of `dst` is kept. -/
def copy {n : Nat} (dst : FixedBytes n) (src : Slice) : FixedBytes n :=
  ⟨src.bytes.take n ++ dst.val.drop src.bytes.length, by
    have h := dst.property
    simp only [List.length_append, List.length_take, List.length_drop, h]
    omega⟩

/-- Go error values. `ErrSigFailedToVerify` is the package-level sentinel
`errors.New("signature did not verify")`; `bls msg` is an error value created inside
`crypto/bls` (which this package imports, so it cannot return the sentinel of this
package); `other msg` is any other error value (merkleization, state accessor, a
caller-supplied root function); `Wrap cause msg` is `errors.Wrap(cause, msg)`. -/
inductive Error where
  | ErrSigFailedToVerify : Error
  | bls (msg : String) : Error
  | other (msg : String) : Error
  | Wrap (cause : Error) (msg : String) : Error
  deriving DecidableEq, Repr

/-- A Go `(T, error)` return value. -/
abbrev GoResult (α : Type) := α × Option Error

/-- The outcome of running a function body that holds slice, index or pointer
expressions: `none` is a run-time fault of such an expression (out of range, nil
dereference), `some r` is a normal return of `r`. -/
abbrev Run (α : Type) := Option α

/-- The slice expression `s[:n]`. Every slice of this package is created with its
capacity equal to its length, so the expression is in range exactly when
`n ≤ len(s)`. -/
def sliceTo (s : Slice) (n : Nat) : Run (List Byte) :=
  if n ≤ s.bytes.length then some (s.bytes.take n) else none

/-- ForkVersionByteLength length of fork version byte array. -/
def ForkVersionByteLength : Nat := 4

/-- DomainByteLength length of domain byte array. -/
def DomainByteLength : Nat := 4

/-- Modelled from the spec: the constant `params.BeaconConfig().ZeroHash` (package
`config/params`, not part of the sources at hand) is 32 zero bytes. -/
def ZeroHash : FixedBytes 32 := FixedBytes.zero 32

/-- The SSZ merkleization capability consumed by the package and the part of the
network configuration it reads.
`forkDataHashTreeRoot v g` is `(&ethpb.ForkData{CurrentVersion: v, GenesisValidatorsRoot: g}).HashTreeRoot()`,
`signingDataHashTreeRoot r d` is `(&ethpb.SigningData{ObjectRoot: r, Domain: d}).HashTreeRoot()`,
`GenesisForkVersion` is `params.BeaconConfig().GenesisForkVersion`. -/
structure Merkle where
  forkDataHashTreeRoot : Slice → Slice → GoResult (FixedBytes 32)
  signingDataHashTreeRoot : Slice → Slice → GoResult (FixedBytes 32)
  GenesisForkVersion : Slice

/-- An `fssz.HashRoot`: an object that exposes `HashTreeRoot() ([32]byte, error)`.
The method is taken to be a function of the object's content. -/
structure HashRoot where
  HashTreeRoot : Unit → GoResult (FixedBytes 32)

/-! ## Fork data root, domain and fork digest -/

/-- this returns the 32byte fork data root for the ``current_version`` and
``genesis_validators_root``. -/
def computeForkDataRoot (M : Merkle) (version root : Slice) : GoResult (FixedBytes 32) :=
  match M.forkDataHashTreeRoot version root with
  | (_, some err) => (FixedBytes.zero 32, some err)
  | (r, none) => (r, none)

/-- This returns the bls domain given by the domain type and fork data root:
`append(append(nil, domainType[:4]...), forkDataRoot[:28]...)`. -/
def domain (domainType : FixedBytes 4) (forkDataRoot : Slice) : Run Slice :=
  let b : List Byte := []
  match sliceTo domainType.slice 4 with
  | none => none
  | some dt =>
    let b := b ++ dt
    match sliceTo forkDataRoot 28 with
    | none => none
    | some fdr =>
      let b := b ++ fdr
      some (some b)

/-- ComputeDomain returns the domain version for BLS private key to sign and verify. -/
def ComputeDomain (M : Merkle) (domainType : FixedBytes 4)
    (forkVersion genesisValidatorsRoot : Slice) : Run (GoResult Slice) :=
  let forkVersion := if forkVersion = none then M.GenesisForkVersion else forkVersion
  let genesisValidatorsRoot :=
    if genesisValidatorsRoot = none then ZeroHash.slice else genesisValidatorsRoot
  let forkBytes : FixedBytes 4 := FixedBytes.zero ForkVersionByteLength
  let forkBytes := copy forkBytes forkVersion
  match computeForkDataRoot M forkBytes.slice genesisValidatorsRoot with
  | (_, some err) => some (none, some err)
  | (forkDataRoot, none) =>
    match domain domainType forkDataRoot.slice with
    | none => none
    | some d => some (d, none)

/-- Modelled from the spec: `bytesutil.ToBytes4` (package `encoding/bytesutil`, not part
of the sources at hand) gives the first 4 bytes of its input; a shorter input is
front-copied into a zeroed 4-byte array. -/
def ToBytes4 (x : Slice) : FixedBytes 4 := copy (FixedBytes.zero 4) x

/-- ComputeForkDigest returns the fork for the current version and genesis validator root. -/
def ComputeForkDigest (M : Merkle) (version genesisValidatorsRoot : Slice) :
    GoResult (FixedBytes 4) :=
  match computeForkDataRoot M version genesisValidatorsRoot with
  | (_, some err) => (FixedBytes.zero 4, some err)
  | (dataRoot, none) => (ToBytes4 dataRoot.slice, none)

/-! ## Signing root -/

/-- Computes the signing data by utilising the provided root function and then
returning the signing data of the container object. -/
def signingData (M : Merkle) (rootFunc : Unit → GoResult (FixedBytes 32)) (domain : Slice) :
    GoResult (FixedBytes 32) :=
  match rootFunc () with
  | (_, some err) => (FixedBytes.zero 32, some err)
  | (objRoot, none) => M.signingDataHashTreeRoot objRoot.slice domain

/-- ComputeSigningRoot computes the root of the object by calculating the hash tree root
of the signing data with the given domain. -/
def ComputeSigningRoot (M : Merkle) (object : HashRoot) (domain : Slice) :
    GoResult (FixedBytes 32) :=
  signingData M object.HashTreeRoot domain

/-! ## Collaborators: the BLS primitive and the beacon state -/

/-- The BLS primitive of `crypto/bls`. The two decoders are fallible; on failure they
give an error value of their own package, recorded by its message.
`Sign key msg` is `key.Sign(msg)`, `Verify sig pk msg` is `sig.Verify(pk, msg)`,
`SignatureMarshal sig` is `sig.Marshal()`, `PublicKeyMarshal pk` is `pk.Marshal()` and
`PublicKey key` is `key.PublicKey()`. -/
structure BLS (SecretKey PublicKey Signature : Type) where
  PublicKeyFromBytes : Slice → Except String PublicKey
  SignatureFromBytes : Slice → Except String Signature
  Sign : SecretKey → Slice → Signature
  Verify : Signature → PublicKey → Slice → Bool
  SignatureMarshal : Signature → Slice
  PublicKeyMarshal : PublicKey → Slice
  PublicKey : SecretKey → PublicKey

/-- The field of `ethpb.Validator` read by this package. -/
structure Validator where
  PublicKey : Slice
  deriving DecidableEq, Repr

/-- The accessors of `state.ReadOnlyBeaconState` read by this package. A successful
`ValidatorAtIndex` gives a validator, a failed one an error. -/
structure ReadOnlyBeaconState (Fork : Type) where
  Fork : Fork
  GenesisValidatorRoot : Slice
  ValidatorAtIndex : Nat → Except Error Validator

/-- The type of `Domain(fork, epoch, domainType, genesisRoot)` of `domain.go`, a
function of this package that is a parameter here. -/
abbrev DomainFn (Fork : Type) := Fork → Nat → FixedBytes 4 → Slice → GoResult Slice

/-- The `bls.SignatureSet` of one batch: parallel arrays of signatures, public keys
and messages. -/
structure SignatureSet (PublicKey : Type) where
  Signatures : List Slice
  PublicKeys : List PublicKey
  Messages : List (FixedBytes 32)

/-! ## Sign and verify -/

section Operations

variable {Fork SecretKey PublicKey Signature : Type}

/-- ComputeDomainAndSign computes the domain and signing root and sign it using the
passed in private key. -/
def ComputeDomainAndSign (M : Merkle) (B : BLS SecretKey PublicKey Signature)
    (Domain : DomainFn Fork) (st : ReadOnlyBeaconState Fork) (epoch : Nat) (obj : HashRoot)
    (domain : FixedBytes 4) (key : SecretKey) : GoResult Slice :=
  match Domain st.Fork epoch domain st.GenesisValidatorRoot with
  | (_, some err) => (none, some err)
  | (d, none) =>
    match ComputeSigningRoot M obj d with
    | (_, some err) => (none, some err)
    | (sr, none) => (B.SignatureMarshal (B.Sign key sr.slice), none)

/-- VerifySigningRoot verifies the signing root of an object given its public key,
signature and domain. -/
def VerifySigningRoot (M : Merkle) (B : BLS SecretKey PublicKey Signature) (obj : HashRoot)
    (pub signature domain : Slice) : Option Error :=
  match B.PublicKeyFromBytes pub with
  | .error err => some (.Wrap (.bls err) "could not convert bytes to public key")
  | .ok publicKey =>
    match B.SignatureFromBytes signature with
    | .error err => some (.Wrap (.bls err) "could not convert bytes to signature")
    | .ok sig =>
      match ComputeSigningRoot M obj domain with
      | (_, some err) => some (.Wrap err "could not compute signing root")
      | (root, none) =>
        if !B.Verify sig publicKey root.slice then some .ErrSigFailedToVerify else none

/-- ComputeDomainVerifySigningRoot computes domain and verifies signing root of an object
given the beacon state, validator index and signature. -/
def ComputeDomainVerifySigningRoot (M : Merkle) (B : BLS SecretKey PublicKey Signature)
    (Domain : DomainFn Fork) (st : ReadOnlyBeaconState Fork) (index : Nat) (epoch : Nat)
    (obj : HashRoot) (domain : FixedBytes 4) (sig : Slice) : Option Error :=
  match st.ValidatorAtIndex index with
  | .error err => some err
  | .ok v =>
    match Domain st.Fork epoch domain st.GenesisValidatorRoot with
    | (_, some err) => some err
    | (d, none) => VerifySigningRoot M B obj v.PublicKey sig d

/-- VerifyBlockHeaderSigningRoot verifies the signing root of a block header given its
public key, signature and domain. The header enters through its `HashTreeRoot` method. -/
def VerifyBlockHeaderSigningRoot (M : Merkle) (B : BLS SecretKey PublicKey Signature)
    (blkHdr : HashRoot) (pub signature domain : Slice) : Option Error :=
  match B.PublicKeyFromBytes pub with
  | .error err => some (.Wrap (.bls err) "could not convert bytes to public key")
  | .ok publicKey =>
    match B.SignatureFromBytes signature with
    | .error err => some (.Wrap (.bls err) "could not convert bytes to signature")
    | .ok sig =>
      match signingData M blkHdr.HashTreeRoot domain with
      | (_, some err) => some (.Wrap err "could not compute signing root")
      | (root, none) =>
        if !B.Verify sig publicKey root.slice then some .ErrSigFailedToVerify else none

/-- BlockSignatureSet retrieves the relevant signature, message and pubkey data from a
block and collating it into a signature set object. The returned pointer is `none`
when it is nil. -/
def BlockSignatureSet (M : Merkle) (B : BLS SecretKey PublicKey Signature)
    (pub signature domain : Slice) (rootFunc : Unit → GoResult (FixedBytes 32)) :
    GoResult (Option (SignatureSet PublicKey)) :=
  match B.PublicKeyFromBytes pub with
  | .error err => (none, some (.Wrap (.bls err) "could not convert bytes to public key"))
  | .ok publicKey =>
    match signingData M rootFunc domain with
    | (_, some err) => (none, some (.Wrap err "could not compute signing root"))
    | (root, none) =>
      (some { Signatures := [signature], PublicKeys := [publicKey], Messages := [root] }, none)

/-- VerifyBlockSigningRoot verifies the signing root of a block given its public key,
signature and domain. The dereference of the returned set and the three index
expressions `[0]` are run-time checked. -/
def VerifyBlockSigningRoot (M : Merkle) (B : BLS SecretKey PublicKey Signature)
    (pub signature domain : Slice) (rootFunc : Unit → GoResult (FixedBytes 32)) :
    Run (Option Error) :=
  match BlockSignatureSet M B pub signature domain rootFunc with
  | (_, some err) => some (some err)
  | (none, none) => none
  | (some set, none) =>
    match set.Signatures[0]?, set.PublicKeys[0]?, set.Messages[0]? with
    | some sig, some publicKey, some root =>
      match B.SignatureFromBytes sig with
      | .error err => some (some (.bls err))
      | .ok rSig =>
        if !B.Verify rSig publicKey root.slice then some (some .ErrSigFailedToVerify)
        else some none
    | _, _, _ => none

end Operations

/-! ## The same operations on an object or root function that may be nil

An `fssz.HashRoot` is an interface value and a `func() ([32]byte, error)` a func value;
both may be nil. Here `none` is the nil value, and the result is a `Run`: evaluating the
method value `object.HashTreeRoot` of a nil interface, and calling a nil func value, are
run-time faults. -/

namespace Nilable

variable {SecretKey PublicKey Signature : Type}

/-- Computes the signing data by utilising the provided root function: `rootFunc()` is
the first statement of the body. -/
def signingData (M : Merkle) (rootFunc : Option (Unit → GoResult (FixedBytes 32)))
    (domain : Slice) : Run (GoResult (FixedBytes 32)) :=
  match rootFunc with
  | none => none
  | some f =>
    match f () with
    | (_, some err) => some (FixedBytes.zero 32, some err)
    | (objRoot, none) => some (M.signingDataHashTreeRoot objRoot.slice domain)

/-- ComputeSigningRoot: the argument `object.HashTreeRoot` is evaluated before
`signingData` is entered. -/
def ComputeSigningRoot (M : Merkle) (object : Option HashRoot) (domain : Slice) :
    Run (GoResult (FixedBytes 32)) :=
  match object with
  | none => none
  | some o => signingData M (some o.HashTreeRoot) domain

/-- BlockSignatureSet on a root function that may be nil. -/
def BlockSignatureSet (M : Merkle) (B : BLS SecretKey PublicKey Signature)
    (pub signature domain : Slice) (rootFunc : Option (Unit → GoResult (FixedBytes 32))) :
    Run (GoResult (Option (SignatureSet PublicKey))) :=
  match B.PublicKeyFromBytes pub with
  | .error err =>
    some (none, some (.Wrap (.bls err) "could not convert bytes to public key"))
  | .ok publicKey =>
    match signingData M rootFunc domain with
    | none => none
    | some (_, some err) => some (none, some (.Wrap err "could not compute signing root"))
    | some (root, none) =>
      some (some { Signatures := [signature], PublicKeys := [publicKey], Messages := [root] },
        none)

/-- VerifyBlockSigningRoot on a root function that may be nil. -/
def VerifyBlockSigningRoot (M : Merkle) (B : BLS SecretKey PublicKey Signature)
    (pub signature domain : Slice) (rootFunc : Option (Unit → GoResult (FixedBytes 32))) :
    Run (Option Error) :=
  match BlockSignatureSet M B pub signature domain rootFunc with
  | none => none
  | some (_, some err) => some (some err)
  | some (none, none) => none
  | some (some set, none) =>
    match set.Signatures[0]?, set.PublicKeys[0]?, set.Messages[0]? with
    | some sig, some publicKey, some root =>
      match B.SignatureFromBytes sig with
      | .error err => some (some (.bls err))
      | .ok rSig =>
        if !B.Verify rSig publicKey root.slice then some (some .ErrSigFailedToVerify)
        else some none
    | _, _, _ => none

end Nilable

/-! ## A small concrete instance of the collaborators

The instance is used to evaluate the operations at concrete inputs. Its merkleization
rejects fields of the wrong length, as the generated SSZ code does, and its signature
scheme signs a message by putting the key in front of it. -/

namespace Toy

/-- Merkleization of the instance: `ForkData` needs a 4-byte version and a 32-byte
root, `SigningData` two 32-byte fields. -/
def merkle : Merkle where
  forkDataHashTreeRoot v g :=
    if h : v.bytes.length = 4 ∧ g.bytes.length = 32 then
      (⟨v.bytes ++ g.bytes.take 28, by simp [h.1, h.2]⟩, none)
    else (FixedBytes.zero 32, some (.other "ForkData: wrong field length"))
  signingDataHashTreeRoot r d :=
    if h : r.bytes.length = 32 ∧ d.bytes.length = 32 then
      (⟨r.bytes.take 16 ++ d.bytes.take 16, by simp [h.1, h.2]⟩, none)
    else (FixedBytes.zero 32, some (.other "SigningData: wrong field length"))
  GenesisForkVersion := some [0, 0, 0, 1]

/-- Signature scheme of the instance: keys are single bytes, the public key of a
secret key is the same byte, a signature is the key followed by the message. -/
def bls : BLS Byte Byte (Byte × List Byte) where
  PublicKeyFromBytes pub :=
    match pub with
    | some [k] => .ok k
    | _ => .error "bls: public key must be 1 byte"
  SignatureFromBytes sig :=
    match sig with
    | some (k :: m) => .ok (k, m)
    | _ => .error "bls: signature must not be empty"
  Sign key msg := (key, msg.bytes)
  Verify sig pk msg := decide (sig = (pk, msg.bytes))
  SignatureMarshal sig := some (sig.1 :: sig.2)
  PublicKeyMarshal pk := some [pk]
  PublicKey key := key

/-- Domain function of the instance: the fork is its current version; a nil version
is refused. -/
def Domain : DomainFn Slice := fun fork _ domainType _ =>
  match fork with
  | none => (some [], some (.other "nil fork or domain type"))
  | some _ => (some (domainType.val ++ List.replicate 28 0), none)

/-- A state of the instance with two validators, of keys 7 and 9. -/
def state : ReadOnlyBeaconState Slice where
  Fork := some [0, 0, 0, 1]
  GenesisValidatorRoot := ZeroHash.slice
  ValidatorAtIndex i :=
    match i with
    | 0 => .ok { PublicKey := some [7] }
    | 1 => .ok { PublicKey := some [9] }
    | _ => .error (.other "index out of range")

/-- An object of the instance whose content root is 32 bytes of value `b`. -/
def object (b : Byte) : HashRoot where
  HashTreeRoot _ := (⟨List.replicate 32 b, by simp⟩, none)

/-- The signature of key 7 over the signing root of `object 5` under the domain the
instance gives to `domainType`. -/
def signature : Slice :=
  some (7 :: (List.replicate 16 5 ++ ([1, 0, 0, 0] ++ List.replicate 12 0)))

/-- The signing root the instance gives to `object 5` under `domain32`. -/
def signingRoot : FixedBytes 32 :=
  ⟨List.replicate 16 5 ++ ([1, 0, 0, 0] ++ List.replicate 12 0), by decide⟩

/-- An object of the instance whose merkleization fails. -/
def badObject : HashRoot where
  HashTreeRoot _ := (FixedBytes.zero 32, some (.other "object: invalid structure"))

/-- The 32-byte domain the instance gives to `domainType`. -/
def domain32 : Slice := some ([1, 0, 0, 0] ++ List.replicate 28 0)

/-- The domain type `0x01000000`. -/
def domainType : FixedBytes 4 := ⟨[1, 0, 0, 0], rfl⟩

/-- The fork version `0x00000001`. -/
def forkVersion : FixedBytes 4 := ⟨[0, 0, 0, 1], rfl⟩

/-- The fork data root the instance gives to `forkVersion` and the zero hash. -/
def forkDataRoot : FixedBytes 32 := ⟨[0, 0, 0, 1] ++ List.replicate 28 0, by decide⟩

/-- A second 32-byte domain, of domain type `0x02000000`. -/
def otherDomain32 : Slice := some ([2, 0, 0, 0] ++ List.replicate 28 0)

/-- A second merkleization of the instance, whose `SigningData` root is the bytewise
sum of the two 32-byte fields: for one object root, two domains never give the same
root. -/
def sumMerkle : Merkle where
  forkDataHashTreeRoot := merkle.forkDataHashTreeRoot
  signingDataHashTreeRoot r d :=
    if h : r.bytes.length = 32 ∧ d.bytes.length = 32 then
      (⟨List.zipWith (fun x y => x + y) r.bytes d.bytes, by simp [h.1, h.2]⟩, none)
    else (FixedBytes.zero 32, some (.other "SigningData: wrong field length"))
  GenesisForkVersion := some [0, 0, 0, 1]

/-- The signing root `sumMerkle` gives to `object 5` under `domain32`. -/
def sumSigningRoot : FixedBytes 32 := ⟨6 :: List.replicate 31 5, by decide⟩

/-- The domain type `0x02000000`. -/
def otherDomainType : FixedBytes 4 := ⟨[2, 0, 0, 0], rfl⟩

end Toy

end Signing

/-! ## The metrics collector of the proof-of-work chain service

A shallow embedding of `Describe` and `Collect` of `beacon-chain/powchain/prometheus.go`.
A send on the channel `ch` appends to the list of values sent. The mutex, the update
channel and the update loop do not enter: `Collect` reads the latest stats it is given. -/

namespace Powchain

/-- The three fields of `clientstats.BeaconNodeStats` read by the collector. -/
structure BeaconNodeStats where
  SyncEth1Connected : Bool
  SyncEth1FallbackConfigured : Bool
  SyncEth1FallbackConnected : Bool
  deriving DecidableEq, Repr

/-- The value types of `prometheus.ValueType`. -/
inductive ValueType where
  | CounterValue : ValueType
  | GaugeValue : ValueType
  | UntypedValue : ValueType
  deriving DecidableEq, Repr

/-- A metric as made by `prometheus.MustNewConstMetric(desc, valueType, value)`. The
only `float64` values the collector writes are the constants 0 and 1, held here as the
naturals 0 and 1. -/
structure Metric (Desc : Type) where
  desc : Desc
  valueType : ValueType
  value : Nat
  deriving DecidableEq, Repr

/-- The library call `prometheus.MustNewConstMetric` on a valid descriptor. -/
def MustNewConstMetric {Desc : Type} (desc : Desc) (valueType : ValueType) (value : Nat) :
    Metric Desc :=
  { desc := desc, valueType := valueType, value := value }

/-- The descriptor fields and the latest stats of a `PowchainCollector`. -/
structure PowchainCollector (Desc : Type) where
  SyncEth1Connected : Desc
  SyncEth1FallbackConnected : Desc
  SyncEth1FallbackConfigured : Desc
  latestStats : BeaconNodeStats

variable {Desc : Type}

/-- The latest stats, read under the lock. -/
def PowchainCollector.getLatestStats (pc : PowchainCollector Desc) : BeaconNodeStats :=
  pc.latestStats

/-- Describe is invoked by the prometheus collection loop: the descriptors sent on `ch`,
in the order they are sent. -/
def PowchainCollector.Describe (pc : PowchainCollector Desc) : List Desc :=
  let ch : List Desc := []
  let ch := ch ++ [pc.SyncEth1Connected]
  let ch := ch ++ [pc.SyncEth1FallbackConfigured]
  let ch := ch ++ [pc.SyncEth1FallbackConnected]
  ch

/-- Collect is invoked by the prometheus collection loop: the metrics sent on `ch`, in
the order they are sent. -/
def PowchainCollector.Collect (pc : PowchainCollector Desc) : List (Metric Desc) :=
  let ch : List (Metric Desc) := []
  let bs := pc.getLatestStats
  let syncEth1FallbackConfigured : Nat := if bs.SyncEth1FallbackConfigured then 1 else 0
  let ch := ch ++ [MustNewConstMetric pc.SyncEth1FallbackConfigured .GaugeValue
    syncEth1FallbackConfigured]
  let syncEth1FallbackConnected : Nat := if bs.SyncEth1FallbackConnected then 1 else 0
  let ch := ch ++ [MustNewConstMetric pc.SyncEth1FallbackConnected .GaugeValue
    syncEth1FallbackConnected]
  let syncEth1Connected : Nat := if bs.SyncEth1Connected then 1 else 0
  let ch := ch ++ [MustNewConstMetric pc.SyncEth1Connected .GaugeValue syncEth1Connected]
  ch

/-- A descriptor as made by `prometheus.NewDesc(fqName, help, nil, nil)`. -/
structure NamedDesc where
  fqName : String
  help : String
  deriving DecidableEq, Repr

/-- The library call `prometheus.BuildFQName`: the non-empty parts joined by an
underscore, and the empty string when the name is empty. -/
def BuildFQName (ns subsystem name : String) : String :=
  if name = "" then ""
  else if ns ≠ "" ∧ subsystem ≠ "" then ns ++ "_" ++ subsystem ++ "_" ++ name
  else if ns ≠ "" then ns ++ "_" ++ name
  else if subsystem ≠ "" then subsystem ++ "_" ++ name
  else name

/-- The collector made by `NewPowchainCollector`, before any update: its three
descriptors and the zero value of the latest stats. -/
def NewPowchainCollector : PowchainCollector NamedDesc :=
  let ns := "powchain"
  { SyncEth1FallbackConfigured :=
      { fqName := BuildFQName ns "" "sync_eth1_fallback_configured",
        help := "Boolean recording whether a fallback eth1 endpoint was configured: 0=false, 1=true." },
    SyncEth1FallbackConnected :=
      { fqName := BuildFQName ns "" "sync_eth1_fallback_connected",
        help := "Boolean indicating whether a fallback eth1 endpoint is currently connected: 0=false, 1=true." },
    SyncEth1Connected :=
      { fqName := BuildFQName ns "" "sync_eth1_connected",
        help := "Boolean indicating whether an eth1 endpoint is currently connected: 0=false, 1=true." },
    latestStats :=
      { SyncEth1Connected := false, SyncEth1FallbackConfigured := false,
        SyncEth1FallbackConnected := false } }

/-- The update loop stores the stats it receives: `setLatestStats`. -/
def PowchainCollector.setLatestStats (pc : PowchainCollector Desc) (bs : BeaconNodeStats) :
    PowchainCollector Desc :=
  { pc with latestStats := bs }

end Powchain

/-! ## Theorems -/

namespace Signing

/-! ### Helper lemmas -/

theorem copy_val_of_length_eq {n : Nat} (dst : FixedBytes n) (bs : List Byte)
    (h : bs.length = n) : (copy dst (some bs)).val = bs := by
  have h1 : List.take n bs = bs := List.take_of_length_le (by omega)
  have h2 : List.drop n dst.val = [] := List.drop_of_length_le (by simp [dst.property])
  simp [copy, Slice.bytes, h, h1, h2]

theorem domain_eq (domainType : FixedBytes 4) (forkDataRoot : FixedBytes 32) :
    domain domainType forkDataRoot.slice
      = some (some (domainType.val ++ forkDataRoot.val.take 28)) := by
  simp [domain, sliceTo, FixedBytes.slice, Slice.bytes, domainType.property,
    forkDataRoot.property]

/-- The body of `ComputeDomain` after its defaults: one merkleization of the copied
fork version and the effective root, then the layout of the domain. -/
theorem ComputeDomain_eq (M : Merkle) (d : FixedBytes 4) (v g : Slice) :
    ComputeDomain M d v g =
      match M.forkDataHashTreeRoot
          (copy (FixedBytes.zero 4) (if v = none then M.GenesisForkVersion else v)).slice
          (if g = none then ZeroHash.slice else g) with
      | (_, some err) => some (none, some err)
      | (r, none) => some (some (d.val ++ r.val.take 28), none) := by
  unfold ComputeDomain computeForkDataRoot
  simp only [ForkVersionByteLength]
  rcases h : M.forkDataHashTreeRoot
      (copy (FixedBytes.zero 4) (if v = none then M.GenesisForkVersion else v)).slice
      (if g = none then ZeroHash.slice else g) with ⟨r, _ | e⟩
  · simp [domain_eq]
  · simp

theorem copy_zero_fixed (v : FixedBytes 4) : copy (FixedBytes.zero 4) v.slice = v :=
  Subtype.ext (copy_val_of_length_eq _ v.val v.property)

theorem copy_zero_val (n : Nat) (v : List Byte) :
    (copy (FixedBytes.zero n) (some v)).val = v.take n ++ List.replicate (n - v.length) 0 := by
  simp [copy, FixedBytes.zero, Slice.bytes]

/-- The fork version enters `ComputeDomain` only through its front copy into four bytes. -/
theorem ComputeDomain_congr (M : Merkle) (d : FixedBytes 4) (g : Slice) (v w : List Byte)
    (h : (copy (FixedBytes.zero 4) (some v)).val = (copy (FixedBytes.zero 4) (some w)).val) :
    ComputeDomain M d (some v) g = ComputeDomain M d (some w) g := by
  have h' : copy (FixedBytes.zero 4) (some v) = copy (FixedBytes.zero 4) (some w) :=
    Subtype.ext h
  rw [ComputeDomain_eq, ComputeDomain_eq]
  simp [h']

/-! ### ComputeDomain -/

/-- C1: for a 4-byte domain type `d`, a 4-byte fork version `v` and a genesis validators
root `g` (a nil `g` standing for the zero hash it is replaced by), when the fork-data
merkleization succeeds with root `r`, `ComputeDomain` returns no error and a domain of
exactly 32 bytes whose bytes 0..3 are `d` and whose bytes 4..31 are `r[0:28]`; when the
merkleization fails, `ComputeDomain` returns that error and the nil domain. -/
theorem ComputeDomain_layout (M : Merkle) (d v : FixedBytes 4) (g : Slice) :
    (∀ r : FixedBytes 32,
      M.forkDataHashTreeRoot v.slice (if g = none then ZeroHash.slice else g) = (r, none) →
        ∃ dom : List Byte, ComputeDomain M d v.slice g = some (some dom, none) ∧
          dom.length = 32 ∧ dom.take 4 = d.val ∧ dom.drop 4 = r.val.take 28 ∧
          dom = d.val ++ r.val.take 28) ∧
    (∀ (r : FixedBytes 32) (e : Error),
      M.forkDataHashTreeRoot v.slice (if g = none then ZeroHash.slice else g) = (r, some e) →
        ComputeDomain M d v.slice g = some (none, some e)) := by
  have hv : (if v.slice = none then M.GenesisForkVersion else v.slice) = v.slice := by
    simp [FixedBytes.slice]
  have hd : d.val.length = 4 := d.property
  constructor
  · intro r h
    refine ⟨d.val ++ r.val.take 28, ?_, ?_, ?_, ?_, rfl⟩
    · rw [ComputeDomain_eq, hv, copy_zero_fixed, h]
    · simp [hd, r.property]
    · simp [hd]
    · simp [hd]
  · intro r e h
    rw [ComputeDomain_eq, hv, copy_zero_fixed, h]

/-- Witness of C1 on the concrete instance: a success with the nil root defaulted, and
a merkleization failure on an empty root. -/
theorem ComputeDomain_layout_witness :
    (∃ dom : List Byte,
      ComputeDomain Toy.merkle Toy.domainType Toy.forkVersion.slice none
          = some (some dom, none) ∧
        dom.length = 32 ∧ dom.take 4 = Toy.domainType.val ∧
        dom.drop 4 = Toy.forkDataRoot.val.take 28 ∧
        dom = Toy.domainType.val ++ Toy.forkDataRoot.val.take 28) ∧
    ComputeDomain Toy.merkle Toy.domainType Toy.forkVersion.slice (some [])
      = some (none, some (.other "ForkData: wrong field length")) :=
  ⟨(ComputeDomain_layout Toy.merkle Toy.domainType Toy.forkVersion none).1
      Toy.forkDataRoot (by decide),
   (ComputeDomain_layout Toy.merkle Toy.domainType Toy.forkVersion (some [])).2
      (FixedBytes.zero 32) _ (by decide)⟩

/-- C2: the two defaults of `ComputeDomain`. A nil fork version gives the same result as
the configured genesis fork version, a nil genesis validators root the same result as
the 32 zero bytes, each independently of the other argument, and both together. -/
theorem ComputeDomain_defaults (M : Merkle) (d : FixedBytes 4) :
    ComputeDomain M d none none
      = ComputeDomain M d M.GenesisForkVersion (some (List.replicate 32 0)) ∧
    (∀ g : Slice, ComputeDomain M d none g = ComputeDomain M d M.GenesisForkVersion g) ∧
    (∀ v : Slice, ComputeDomain M d v none = ComputeDomain M d v (some (List.replicate 32 0))) := by
  have hz : ZeroHash.slice = some (List.replicate 32 0) := rfl
  have hfv : ∀ g : Slice,
      ComputeDomain M d none g = ComputeDomain M d M.GenesisForkVersion g := by
    intro g
    rw [ComputeDomain_eq, ComputeDomain_eq]
    cases hG : M.GenesisForkVersion <;> simp
  have hgr : ∀ v : Slice,
      ComputeDomain M d v none = ComputeDomain M d v (some (List.replicate 32 0)) := by
    intro v
    rw [ComputeDomain_eq, ComputeDomain_eq, hz]
    simp
  exact ⟨(hfv none).trans (hgr _), hfv, hgr⟩

/-! ### Sign and verify -/

/-- C3: sign-then-verify round trip. Under a correct BLS primitive (decoding a marshalled
signature or public key gives it back, and a signature made with a secret key verifies
under its public key), whenever `ComputeDomainAndSign` succeeds with signature bytes `s`,
`VerifySigningRoot` on the marshalled public key, `s` and the domain returned by `Domain`
returns nil, and `ComputeDomainVerifySigningRoot` returns nil for every validator index
whose stored public key is the marshalled public key. -/
theorem sign_then_verify {Fork SecretKey PublicKey Signature : Type} (M : Merkle)
    (B : BLS SecretKey PublicKey Signature) (Domain : DomainFn Fork)
    (st : ReadOnlyBeaconState Fork) (epoch : Nat) (obj : HashRoot) (domainType : FixedBytes 4)
    (sk : SecretKey) (s : Slice)
    (hsig : ∀ sg : Signature, B.SignatureFromBytes (B.SignatureMarshal sg) = .ok sg)
    (hpub : ∀ pk : PublicKey, B.PublicKeyFromBytes (B.PublicKeyMarshal pk) = .ok pk)
    (hver : ∀ (key : SecretKey) (msg : Slice),
      B.Verify (B.Sign key msg) (B.PublicKey key) msg = true)
    (hsign : ComputeDomainAndSign M B Domain st epoch obj domainType sk = (s, none)) :
    VerifySigningRoot M B obj (B.PublicKeyMarshal (B.PublicKey sk)) s
        (Domain st.Fork epoch domainType st.GenesisValidatorRoot).1 = none ∧
    ∀ (i : Nat) (v : Validator), st.ValidatorAtIndex i = .ok v →
      v.PublicKey = B.PublicKeyMarshal (B.PublicKey sk) →
      ComputeDomainVerifySigningRoot M B Domain st i epoch obj domainType s = none := by
  unfold ComputeDomainAndSign at hsign
  rcases hD : Domain st.Fork epoch domainType st.GenesisValidatorRoot with ⟨d, _ | e⟩
  · rw [hD] at hsign
    rcases hR : ComputeSigningRoot M obj d with ⟨sr, _ | e⟩
    · simp only [hR, Prod.mk.injEq, and_true] at hsign
      have hV : VerifySigningRoot M B obj (B.PublicKeyMarshal (B.PublicKey sk)) s d = none := by
        unfold VerifySigningRoot
        rw [hpub, ← hsign, hsig, hR]
        simp [hver]
      refine ⟨hV, ?_⟩
      intro i v hv hk
      unfold ComputeDomainVerifySigningRoot
      rw [hv, hD]
      simpa [hk] using hV
    · simp [hR] at hsign
  · rw [hD] at hsign
    simp at hsign

/-- Witness of C3 on the concrete instance: key 7 signs `object 5`, and the signature
verifies by raw key and by the index of the validator holding key 7. -/
theorem sign_then_verify_witness :
    ComputeDomainAndSign Toy.merkle Toy.bls Toy.Domain Toy.state 0 (Toy.object 5)
        Toy.domainType (7 : Byte) = (Toy.signature, none) ∧
    VerifySigningRoot Toy.merkle Toy.bls (Toy.object 5)
        (Toy.bls.PublicKeyMarshal (Toy.bls.PublicKey 7)) Toy.signature
        (Toy.Domain Toy.state.Fork 0 Toy.domainType Toy.state.GenesisValidatorRoot).1 = none ∧
    ComputeDomainVerifySigningRoot Toy.merkle Toy.bls Toy.Domain Toy.state 0 0 (Toy.object 5)
        Toy.domainType Toy.signature = none :=
  have h := sign_then_verify Toy.merkle Toy.bls Toy.Domain Toy.state 0 (Toy.object 5)
    Toy.domainType (7 : Byte) Toy.signature (fun _ => rfl) (fun _ => rfl)
    (fun key msg => by simp [Toy.bls]) (by decide)
  ⟨by decide, h.1, h.2 0 ⟨some [7]⟩ rfl rfl⟩

/-- C4: the outcomes of `VerifySigningRoot`. A key that fails to decode gives the wrapped
key decode error, whatever the signature and the object are; a key that decodes with a
signature that does not gives the wrapped signature decode error, whatever the object is;
so a decode failure never gives nil or `ErrSigFailedToVerify`. The result is
`ErrSigFailedToVerify` exactly when both decode, the signing root computes and the
primitive verify is false, and nil exactly when both decode, the signing root computes
and the primitive verify is true. -/
theorem VerifySigningRoot_outcomes {SecretKey PublicKey Signature : Type} (M : Merkle)
    (B : BLS SecretKey PublicKey Signature) (pub signature domain : Slice) :
    (∀ (obj : HashRoot) (e : String), B.PublicKeyFromBytes pub = .error e →
      VerifySigningRoot M B obj pub signature domain
        = some (.Wrap (.bls e) "could not convert bytes to public key")) ∧
    (∀ (obj : HashRoot) (pk : PublicKey) (e : String), B.PublicKeyFromBytes pub = .ok pk →
      B.SignatureFromBytes signature = .error e →
      VerifySigningRoot M B obj pub signature domain
        = some (.Wrap (.bls e) "could not convert bytes to signature")) ∧
    (∀ obj : HashRoot,
      ((∃ e, B.PublicKeyFromBytes pub = .error e) ∨
        (∃ e, B.SignatureFromBytes signature = .error e)) →
      VerifySigningRoot M B obj pub signature domain ≠ none ∧
      VerifySigningRoot M B obj pub signature domain ≠ some .ErrSigFailedToVerify) ∧
    (∀ obj : HashRoot,
      VerifySigningRoot M B obj pub signature domain = some .ErrSigFailedToVerify ↔
        ∃ (pk : PublicKey) (sig : Signature) (root : FixedBytes 32),
          B.PublicKeyFromBytes pub = .ok pk ∧ B.SignatureFromBytes signature = .ok sig ∧
          ComputeSigningRoot M obj domain = (root, none) ∧
          B.Verify sig pk root.slice = false) ∧
    (∀ obj : HashRoot,
      VerifySigningRoot M B obj pub signature domain = none ↔
        ∃ (pk : PublicKey) (sig : Signature) (root : FixedBytes 32),
          B.PublicKeyFromBytes pub = .ok pk ∧ B.SignatureFromBytes signature = .ok sig ∧
          ComputeSigningRoot M obj domain = (root, none) ∧
          B.Verify sig pk root.slice = true) := by
  refine ⟨?_, ?_, ?_, ?_, ?_⟩
  · intro obj e h
    simp [VerifySigningRoot, h]
  · intro obj pk e h h'
    simp [VerifySigningRoot, h, h']
  · intro obj h
    unfold VerifySigningRoot
    rcases hP : B.PublicKeyFromBytes pub with e | pk
    · simp
    · rcases hS : B.SignatureFromBytes signature with e | sig
      · simp
      · rcases h with ⟨e, he⟩ | ⟨e, he⟩
        · rw [hP] at he; cases he
        · rw [hS] at he; cases he
  · intro obj
    unfold VerifySigningRoot
    rcases hP : B.PublicKeyFromBytes pub with e | pk
    · simp
    · rcases hS : B.SignatureFromBytes signature with e | sig
      · simp
      · rcases hR : ComputeSigningRoot M obj domain with ⟨root, _ | e⟩
        · cases hV : B.Verify sig pk root.slice <;> simp [hV]
        · simp
  · intro obj
    unfold VerifySigningRoot
    rcases hP : B.PublicKeyFromBytes pub with e | pk
    · simp
    · rcases hS : B.SignatureFromBytes signature with e | sig
      · simp
      · rcases hR : ComputeSigningRoot M obj domain with ⟨root, _ | e⟩
        · cases hV : B.Verify sig pk root.slice <;> simp [hV]
        · simp

/-- C4 on the concrete instance: an empty key gives the wrapped key decode error, an
empty signature under a good key the wrapped signature decode error, and a signature of
key 7 checked against key 9 gives `ErrSigFailedToVerify`. -/
theorem VerifySigningRoot_outcomes_witness :
    VerifySigningRoot Toy.merkle Toy.bls Toy.badObject (some []) (some []) Toy.domain32
      = some (.Wrap (.bls "bls: public key must be 1 byte")
          "could not convert bytes to public key") ∧
    VerifySigningRoot Toy.merkle Toy.bls Toy.badObject (some [7]) (some []) Toy.domain32
      = some (.Wrap (.bls "bls: signature must not be empty")
          "could not convert bytes to signature") ∧
    VerifySigningRoot Toy.merkle Toy.bls (Toy.object 5) (some [9]) Toy.signature Toy.domain32
      = some .ErrSigFailedToVerify :=
  ⟨(VerifySigningRoot_outcomes Toy.merkle Toy.bls (some []) (some []) Toy.domain32).1
      Toy.badObject _ rfl,
   (VerifySigningRoot_outcomes Toy.merkle Toy.bls (some [7]) (some []) Toy.domain32).2.1
      Toy.badObject 7 _ rfl rfl,
   ((VerifySigningRoot_outcomes Toy.merkle Toy.bls (some [9]) Toy.signature
      Toy.domain32).2.2.2.1 (Toy.object 5)).mpr
      ⟨9, (7, List.replicate 16 5 ++ ([1, 0, 0, 0] ++ List.replicate 12 0)),
        ⟨List.replicate 16 5 ++ ([1, 0, 0, 0] ++ List.replicate 12 0), by decide⟩,
        rfl, rfl, by decide, by decide⟩⟩

/-! ### Signing root and fork digest -/

/-- C5: when the object's `HashTreeRoot` succeeds with root `r`, `ComputeSigningRoot` is
the merkleization of `SigningData{ObjectRoot: r, Domain: dom}` and nothing else, so two
objects with the same content root have the same signing root under the same domain. -/
theorem ComputeSigningRoot_eq (M : Merkle) (dom : Slice) :
    (∀ (obj : HashRoot) (r : FixedBytes 32), obj.HashTreeRoot () = (r, none) →
      ComputeSigningRoot M obj dom = M.signingDataHashTreeRoot (some r.val) dom) ∧
    (∀ (obj₁ obj₂ : HashRoot) (r : FixedBytes 32), obj₁.HashTreeRoot () = (r, none) →
      obj₂.HashTreeRoot () = (r, none) →
      ComputeSigningRoot M obj₁ dom = ComputeSigningRoot M obj₂ dom) := by
  have key : ∀ (obj : HashRoot) (r : FixedBytes 32), obj.HashTreeRoot () = (r, none) →
      ComputeSigningRoot M obj dom = M.signingDataHashTreeRoot (some r.val) dom := by
    intro obj r h
    simp [ComputeSigningRoot, signingData, h, FixedBytes.slice]
  exact ⟨key, fun obj₁ obj₂ r h₁ h₂ => (key obj₁ r h₁).trans (key obj₂ r h₂).symm⟩

/-- C5 on the concrete instance: the signing root of `object 5` is the merkleization of
its content root with the domain. -/
theorem ComputeSigningRoot_eq_witness :
    ComputeSigningRoot Toy.merkle (Toy.object 5) Toy.domain32
      = Toy.merkle.signingDataHashTreeRoot (some (List.replicate 32 5)) Toy.domain32 :=
  (ComputeSigningRoot_eq Toy.merkle Toy.domain32).1 (Toy.object 5)
    ⟨List.replicate 32 5, by decide⟩ rfl

/-- C6: when the fork-data merkleization of `(v, g)` succeeds with root `r`,
`ComputeForkDigest` returns no error and the 4 bytes `r[0:4]`; when it fails,
`ComputeForkDigest` returns that error and the zero digest. No domain type enters. -/
theorem ComputeForkDigest_eq (M : Merkle) (v g : Slice) :
    (∀ r : FixedBytes 32, M.forkDataHashTreeRoot v g = (r, none) →
      (ComputeForkDigest M v g).2 = none ∧
      (ComputeForkDigest M v g).1.val = r.val.take 4) ∧
    (∀ (r : FixedBytes 32) (e : Error), M.forkDataHashTreeRoot v g = (r, some e) →
      ComputeForkDigest M v g = (FixedBytes.zero 4, some e)) := by
  constructor
  · intro r h
    have hr : r.val.length = 32 := r.property
    simp [ComputeForkDigest, computeForkDataRoot, h, ToBytes4, FixedBytes.slice,
      copy_zero_val, hr]
  · intro r e h
    simp [ComputeForkDigest, computeForkDataRoot, h]

/-- C6 on the concrete instance: the digest of the fork version under the zero hash is
the first 4 bytes of the fork data root, and a nil root gives the merkleization error
with the zero digest. -/
theorem ComputeForkDigest_eq_witness :
    ((ComputeForkDigest Toy.merkle Toy.forkVersion.slice ZeroHash.slice).2 = none ∧
      (ComputeForkDigest Toy.merkle Toy.forkVersion.slice ZeroHash.slice).1.val
        = Toy.forkDataRoot.val.take 4) ∧
    ComputeForkDigest Toy.merkle Toy.forkVersion.slice none
      = (FixedBytes.zero 4, some (.other "ForkData: wrong field length")) :=
  ⟨(ComputeForkDigest_eq Toy.merkle Toy.forkVersion.slice ZeroHash.slice).1
      Toy.forkDataRoot (by decide),
   (ComputeForkDigest_eq Toy.merkle Toy.forkVersion.slice none).2
      (FixedBytes.zero 32) _ (by decide)⟩

/-! ### Verification by validator index, signature sets -/

/-- C8: `ComputeDomainVerifySigningRoot` returns the lookup error when the validator
lookup fails, whatever the domain function, the primitive and the object are; otherwise
the error of `Domain` when that fails; otherwise the result of `VerifySigningRoot` on the
validator's public key and the domain. -/
theorem ComputeDomainVerifySigningRoot_eq {Fork SecretKey PublicKey Signature : Type}
    (M : Merkle) (B : BLS SecretKey PublicKey Signature) (Domain : DomainFn Fork)
    (st : ReadOnlyBeaconState Fork) (i epoch : Nat) (obj : HashRoot)
    (domainType : FixedBytes 4) (sig : Slice) :
    (∀ e : Error, st.ValidatorAtIndex i = .error e →
      ComputeDomainVerifySigningRoot M B Domain st i epoch obj domainType sig = some e) ∧
    (∀ (v : Validator) (d : Slice) (e : Error), st.ValidatorAtIndex i = .ok v →
      Domain st.Fork epoch domainType st.GenesisValidatorRoot = (d, some e) →
      ComputeDomainVerifySigningRoot M B Domain st i epoch obj domainType sig = some e) ∧
    (∀ (v : Validator) (d : Slice), st.ValidatorAtIndex i = .ok v →
      Domain st.Fork epoch domainType st.GenesisValidatorRoot = (d, none) →
      ComputeDomainVerifySigningRoot M B Domain st i epoch obj domainType sig
        = VerifySigningRoot M B obj v.PublicKey sig d) := by
  refine ⟨?_, ?_, ?_⟩
  · intro e h
    simp [ComputeDomainVerifySigningRoot, h]
  · intro v d e h h'
    simp [ComputeDomainVerifySigningRoot, h, h']
  · intro v d h h'
    simp [ComputeDomainVerifySigningRoot, h, h']

/-- C8 on the concrete instance: index 5 is out of range and gives the lookup error;
index 1 holds key 9 and gives the result of `VerifySigningRoot` under that key. -/
theorem ComputeDomainVerifySigningRoot_eq_witness :
    ComputeDomainVerifySigningRoot Toy.merkle Toy.bls Toy.Domain Toy.state 5 0 (Toy.object 5)
        Toy.domainType Toy.signature = some (.other "index out of range") ∧
    ComputeDomainVerifySigningRoot Toy.merkle Toy.bls Toy.Domain Toy.state 1 0 (Toy.object 5)
        Toy.domainType Toy.signature
      = VerifySigningRoot Toy.merkle Toy.bls (Toy.object 5) (some [9]) Toy.signature
          Toy.domain32 :=
  ⟨(ComputeDomainVerifySigningRoot_eq Toy.merkle Toy.bls Toy.Domain Toy.state 5 0
      (Toy.object 5) Toy.domainType Toy.signature).1 _ rfl,
   (ComputeDomainVerifySigningRoot_eq Toy.merkle Toy.bls Toy.Domain Toy.state 1 0
      (Toy.object 5) Toy.domainType Toy.signature).2.2 ⟨some [9]⟩ Toy.domain32 rfl rfl⟩

/-- C9: whenever `BlockSignatureSet` returns no error it returns a set whose three arrays
have length exactly 1: the input signature bytes, the key decoded from `pub`, and the
signing root `signingData(rootFunc, domain)`, which is the merkleization of
`SigningData{rootFunc(), domain}`. It returns the nil set with an error when the key
fails to decode or the signing root fails to compute. -/
theorem BlockSignatureSet_singleton {SecretKey PublicKey Signature : Type} (M : Merkle)
    (B : BLS SecretKey PublicKey Signature) (pub signature domain : Slice)
    (rootFunc : Unit → GoResult (FixedBytes 32)) :
    (∀ set : Option (SignatureSet PublicKey),
      BlockSignatureSet M B pub signature domain rootFunc = (set, none) →
      ∃ (s : SignatureSet PublicKey) (pk : PublicKey) (objRoot root : FixedBytes 32),
        set = some s ∧
        s.Signatures = [signature] ∧ s.PublicKeys = [pk] ∧ s.Messages = [root] ∧
        s.Signatures.length = 1 ∧ s.PublicKeys.length = 1 ∧ s.Messages.length = 1 ∧
        B.PublicKeyFromBytes pub = .ok pk ∧
        signingData M rootFunc domain = (root, none) ∧
        rootFunc () = (objRoot, none) ∧
        M.signingDataHashTreeRoot objRoot.slice domain = (root, none)) ∧
    (∀ e : String, B.PublicKeyFromBytes pub = .error e →
      BlockSignatureSet M B pub signature domain rootFunc
        = (none, some (.Wrap (.bls e) "could not convert bytes to public key"))) ∧
    (∀ (r : FixedBytes 32) (e : Error), signingData M rootFunc domain = (r, some e) →
      (BlockSignatureSet M B pub signature domain rootFunc).1 = none ∧
      (BlockSignatureSet M B pub signature domain rootFunc).2 ≠ none) := by
  refine ⟨?_, ?_, ?_⟩
  · intro set h
    unfold BlockSignatureSet at h
    rcases hP : B.PublicKeyFromBytes pub with e | pk
    · simp [hP] at h
    · rcases hR : signingData M rootFunc domain with ⟨root, _ | e⟩
      · simp only [hP, hR, Prod.mk.injEq, and_true] at h
        have hF : ∃ objRoot : FixedBytes 32, rootFunc () = (objRoot, none) ∧
            M.signingDataHashTreeRoot objRoot.slice domain = (root, none) := by
          unfold signingData at hR
          rcases hf : rootFunc () with ⟨objRoot, _ | e⟩
          · exact ⟨objRoot, rfl, by simpa [hf] using hR⟩
          · simp [hf] at hR
        obtain ⟨objRoot, h₁, h₂⟩ := hF
        exact ⟨_, pk, objRoot, root, h.symm, rfl, rfl, rfl, rfl, rfl, rfl, rfl, rfl, h₁, h₂⟩
      · simp [hP, hR] at h
  · intro e h
    simp [BlockSignatureSet, h]
  · intro r e h
    unfold BlockSignatureSet
    rcases hP : B.PublicKeyFromBytes pub with e' | pk
    · simp
    · simp [h]

/-- C9 on the concrete instance: an empty signature under key 7 still gives a set, with
the three arrays of length 1; an empty key gives the nil set and the key decode error. -/
theorem BlockSignatureSet_singleton_witness :
    (∃ (s : SignatureSet Byte) (pk : Byte) (objRoot root : FixedBytes 32),
      some { Signatures := [some []], PublicKeys := [(7 : Byte)],
             Messages := [Toy.signingRoot] } = some s ∧
      s.Signatures = [some []] ∧ s.PublicKeys = [pk] ∧ s.Messages = [root] ∧
      s.Signatures.length = 1 ∧ s.PublicKeys.length = 1 ∧ s.Messages.length = 1 ∧
      Toy.bls.PublicKeyFromBytes (some [7]) = .ok pk ∧
      signingData Toy.merkle (Toy.object 5).HashTreeRoot Toy.domain32 = (root, none) ∧
      (Toy.object 5).HashTreeRoot () = (objRoot, none) ∧
      Toy.merkle.signingDataHashTreeRoot objRoot.slice Toy.domain32 = (root, none)) ∧
    BlockSignatureSet Toy.merkle Toy.bls (some []) (some []) Toy.domain32
        (Toy.object 5).HashTreeRoot
      = (none, some (.Wrap (.bls "bls: public key must be 1 byte")
          "could not convert bytes to public key")) :=
  ⟨(BlockSignatureSet_singleton Toy.merkle Toy.bls (some [7]) (some []) Toy.domain32
      (Toy.object 5).HashTreeRoot).1 _ rfl,
   (BlockSignatureSet_singleton Toy.merkle Toy.bls (some []) (some []) Toy.domain32
      (Toy.object 5).HashTreeRoot).2.1 _ rfl⟩

/-! ### The custom-root verifier against the key verifier -/

/-- C7, as stated, fails: on a decodable key and an empty signature the key verifier
returns the signature decode error wrapped with its context and the custom-root verifier
returns it bare; and when moreover the root function fails, the key verifier still
reports the signature while the custom-root verifier reports the root. -/
theorem VerifyBlockSigningRoot_differs :
    VerifySigningRoot Toy.merkle Toy.bls (Toy.object 5) (some [7]) (some []) Toy.domain32
      = some (.Wrap (.bls "bls: signature must not be empty")
          "could not convert bytes to signature") ∧
    VerifyBlockSigningRoot Toy.merkle Toy.bls (some [7]) (some []) Toy.domain32
        (Toy.object 5).HashTreeRoot
      = some (some (.bls "bls: signature must not be empty")) ∧
    VerifySigningRoot Toy.merkle Toy.bls Toy.badObject (some [7]) (some []) Toy.domain32
      = some (.Wrap (.bls "bls: signature must not be empty")
          "could not convert bytes to signature") ∧
    VerifyBlockSigningRoot Toy.merkle Toy.bls (some [7]) (some []) Toy.domain32
        Toy.badObject.HashTreeRoot
      = some (some (.Wrap (.other "object: invalid structure")
          "could not compute signing root")) ∧
    ¬ (∀ (obj : HashRoot) (pub sig dom : Slice),
        VerifyBlockSigningRoot Toy.merkle Toy.bls pub sig dom obj.HashTreeRoot
          = some (VerifySigningRoot Toy.merkle Toy.bls obj pub sig dom)) := by
  refine ⟨by decide, by decide, by decide, by decide, ?_⟩
  intro h
  have h' := h (Toy.object 5) (some [7]) (some []) Toy.domain32
  revert h'
  decide

/-- C7, amended: `VerifyBlockSigningRoot(pub, sig, dom, obj.HashTreeRoot)` never faults,
returns nil in exactly the cases in which `VerifySigningRoot(obj, pub, sig, dom)` does,
`ErrSigFailedToVerify` in exactly the same cases, and the very same result whenever the
signature bytes decode or the key bytes fail to decode. When the key decodes and the
signature bytes do not, both return an error other than `ErrSigFailedToVerify`: the key
verifier the wrapped signature decode error, before any root is computed; the custom-root
verifier, which computes the signing root first, the wrapped root error when the root
fails. -/
theorem VerifyBlockSigningRoot_agrees {SecretKey PublicKey Signature : Type} (M : Merkle)
    (B : BLS SecretKey PublicKey Signature) (obj : HashRoot) (pub sig dom : Slice) :
    (∃ r : Option Error, VerifyBlockSigningRoot M B pub sig dom obj.HashTreeRoot = some r) ∧
    (VerifyBlockSigningRoot M B pub sig dom obj.HashTreeRoot = some none ↔
      VerifySigningRoot M B obj pub sig dom = none) ∧
    (VerifyBlockSigningRoot M B pub sig dom obj.HashTreeRoot = some (some .ErrSigFailedToVerify) ↔
      VerifySigningRoot M B obj pub sig dom = some .ErrSigFailedToVerify) ∧
    (((∃ sg, B.SignatureFromBytes sig = .ok sg) ∨ (∃ e, B.PublicKeyFromBytes pub = .error e)) →
      VerifyBlockSigningRoot M B pub sig dom obj.HashTreeRoot
        = some (VerifySigningRoot M B obj pub sig dom)) ∧
    (∀ (pk : PublicKey) (e : String), B.PublicKeyFromBytes pub = .ok pk →
      B.SignatureFromBytes sig = .error e →
      VerifySigningRoot M B obj pub sig dom
        = some (.Wrap (.bls e) "could not convert bytes to signature") ∧
      (∃ err : Error, VerifyBlockSigningRoot M B pub sig dom obj.HashTreeRoot = some (some err) ∧
        err ≠ .ErrSigFailedToVerify) ∧
      (∀ (r : FixedBytes 32) (err : Error), ComputeSigningRoot M obj dom = (r, some err) →
        VerifyBlockSigningRoot M B pub sig dom obj.HashTreeRoot
          = some (some (.Wrap err "could not compute signing root")))) := by
  unfold VerifyBlockSigningRoot BlockSignatureSet VerifySigningRoot ComputeSigningRoot
  rcases hP : B.PublicKeyFromBytes pub with e | pk
  · simp
  · rcases hR : signingData M obj.HashTreeRoot dom with ⟨root, _ | err⟩
    · rcases hS : B.SignatureFromBytes sig with e | sg
      · simp [hS]
      · cases hV : B.Verify sg pk root.slice <;> simp [hS, hV]
    · rcases hS : B.SignatureFromBytes sig with e | sg
      · simp
      · simp

/-- The amended C7 on the concrete instance: a valid signature is accepted by both
verifiers, and a signature of another key is refused by both with `ErrSigFailedToVerify`. -/
theorem VerifyBlockSigningRoot_agrees_witness :
    VerifyBlockSigningRoot Toy.merkle Toy.bls (some [7]) Toy.signature Toy.domain32
        (Toy.object 5).HashTreeRoot
      = some (VerifySigningRoot Toy.merkle Toy.bls (Toy.object 5) (some [7]) Toy.signature
          Toy.domain32) ∧
    VerifySigningRoot Toy.merkle Toy.bls (Toy.object 5) (some [7]) Toy.signature Toy.domain32
      = none ∧
    VerifyBlockSigningRoot Toy.merkle Toy.bls (some [9]) Toy.signature Toy.domain32
        (Toy.object 5).HashTreeRoot
      = some (some .ErrSigFailedToVerify) :=
  ⟨(VerifyBlockSigningRoot_agrees Toy.merkle Toy.bls (Toy.object 5) (some [7]) Toy.signature
      Toy.domain32).2.2.2.1 (Or.inl ⟨_, rfl⟩),
   by decide, by decide⟩

/-! ### Fork version length -/

/-- C10: `ComputeDomain` does not validate the length of a non-nil fork version `v`: it
gives the same result as on the 4-byte string made of the first `min(len(v), 4)` bytes of
`v` followed by zero bytes. So two fork versions longer than 4 bytes with the same first
4 bytes give the same domain, and a fork version shorter than 4 bytes gives the same
domain as its right-zero-padded form. -/
theorem ComputeDomain_forkVersion_front_copy (M : Merkle) (d : FixedBytes 4) (g : Slice) :
    (∀ v : List Byte,
      (v.take 4 ++ List.replicate (4 - v.length) 0).length = 4 ∧
      ComputeDomain M d (some v) g
        = ComputeDomain M d (some (v.take 4 ++ List.replicate (4 - v.length) 0)) g) ∧
    (∀ v w : List Byte, 4 < v.length → 4 < w.length → v.take 4 = w.take 4 →
      ComputeDomain M d (some v) g = ComputeDomain M d (some w) g) ∧
    (∀ v : List Byte, v.length < 4 →
      ComputeDomain M d (some v) g
        = ComputeDomain M d (some (v ++ List.replicate (4 - v.length) 0)) g) := by
  have hlen : ∀ v : List Byte,
      (v.take 4 ++ List.replicate (4 - v.length) 0).length = 4 := by
    intro v
    simp only [List.length_append, List.length_take, List.length_replicate]
    omega
  have hpad : ∀ v : List Byte, ComputeDomain M d (some v) g
      = ComputeDomain M d (some (v.take 4 ++ List.replicate (4 - v.length) 0)) g := by
    intro v
    apply ComputeDomain_congr
    rw [copy_zero_val, copy_val_of_length_eq _ _ (hlen v)]
  refine ⟨fun v => ⟨hlen v, hpad v⟩, ?_, ?_⟩
  · intro v w hv hw h
    apply ComputeDomain_congr
    rw [copy_zero_val, copy_zero_val, h]
    have h1 : 4 - v.length = 0 := by omega
    have h2 : 4 - w.length = 0 := by omega
    rw [h1, h2]
  · intro v hv
    have h := hpad v
    rwa [List.take_of_length_le (by omega)] at h

/-- C10 on the concrete instance: a 6-byte and a 5-byte fork version with the same first
4 bytes give the same domain, and the 2-byte version `0x0001` gives the domain of
`0x00010000`. -/
theorem ComputeDomain_forkVersion_front_copy_witness :
    ComputeDomain Toy.merkle Toy.domainType (some [0, 0, 0, 1, 9, 9]) none
      = ComputeDomain Toy.merkle Toy.domainType (some [0, 0, 0, 1, 5]) none ∧
    ComputeDomain Toy.merkle Toy.domainType (some [0, 1]) none
      = ComputeDomain Toy.merkle Toy.domainType (some ([0, 1] ++ List.replicate (4 - 2) 0)) none :=
  ⟨(ComputeDomain_forkVersion_front_copy Toy.merkle Toy.domainType none).2.1
      [0, 0, 0, 1, 9, 9] [0, 0, 0, 1, 5] (by decide) (by decide) rfl,
   (ComputeDomain_forkVersion_front_copy Toy.merkle Toy.domainType none).2.2
      [0, 1] (by decide)⟩

/-! ### No slice or index expression is out of range -/

/-- C11: no slice or index expression of the signing core faults. `ComputeDomain` returns
normally for every domain type, fork version and genesis validators root, nil or of any
length; on a fork data root of length 32, which is all `ComputeDomain` passes to `domain`,
the slices `domainType[:4]` and `forkDataRoot[:28]` are in range; and whenever
`BlockSignatureSet` returns no error, the set is not nil, its three accesses `[0]` are in
range, and `VerifyBlockSigningRoot` returns normally. -/
theorem no_out_of_range {SecretKey PublicKey Signature : Type} (M : Merkle)
    (B : BLS SecretKey PublicKey Signature) :
    (∀ (d : FixedBytes 4) (v g : Slice), ∃ r : GoResult Slice, ComputeDomain M d v g = some r) ∧
    (∀ (d : FixedBytes 4) (root : FixedBytes 32),
      sliceTo d.slice 4 = some d.val ∧ sliceTo root.slice 28 = some (root.val.take 28) ∧
      ∃ b : Slice, domain d root.slice = some b) ∧
    (∀ (pub sig dom : Slice) (rootFunc : Unit → GoResult (FixedBytes 32))
      (set : Option (SignatureSet PublicKey)),
      BlockSignatureSet M B pub sig dom rootFunc = (set, none) →
      ∃ s : SignatureSet PublicKey, set = some s ∧
        s.Signatures[0]? ≠ none ∧ s.PublicKeys[0]? ≠ none ∧ s.Messages[0]? ≠ none) ∧
    (∀ (pub sig dom : Slice) (rootFunc : Unit → GoResult (FixedBytes 32)),
      ∃ r : Option Error, VerifyBlockSigningRoot M B pub sig dom rootFunc = some r) := by
  refine ⟨?_, ?_, ?_, ?_⟩
  · intro d v g
    rw [ComputeDomain_eq]
    rcases M.forkDataHashTreeRoot
        (copy (FixedBytes.zero 4) (if v = none then M.GenesisForkVersion else v)).slice
        (if g = none then ZeroHash.slice else g) with ⟨r, _ | e⟩
    · exact ⟨_, rfl⟩
    · exact ⟨_, rfl⟩
  · intro d root
    refine ⟨?_, ?_, _, domain_eq d root⟩
    · have hd : d.val.length = 4 := d.property
      have ht : List.take 4 d.val = d.val := List.take_of_length_le (by omega)
      simp [sliceTo, FixedBytes.slice, Slice.bytes, hd, ht]
    · simp [sliceTo, FixedBytes.slice, Slice.bytes, root.property]
  · intro pub sig dom rootFunc set h
    unfold BlockSignatureSet at h
    rcases hP : B.PublicKeyFromBytes pub with e | pk
    · simp [hP] at h
    · rcases hR : signingData M rootFunc dom with ⟨root, _ | e⟩
      · simp only [hP, hR, Prod.mk.injEq, and_true] at h
        exact ⟨_, h.symm, by simp, by simp, by simp⟩
      · simp [hP, hR] at h
  · intro pub sig dom rootFunc
    unfold VerifyBlockSigningRoot BlockSignatureSet
    rcases hP : B.PublicKeyFromBytes pub with e | pk
    · exact ⟨_, rfl⟩
    · rcases hR : signingData M rootFunc dom with ⟨root, _ | e⟩
      · rcases hS : B.SignatureFromBytes sig with e | sg
        · simp [hS]
        · cases hV : B.Verify sg pk root.slice <;> simp [hS, hV]
      · exact ⟨_, rfl⟩

/-- C11 on the concrete instance: a 6-byte fork version with an empty root, and a verify
call on an empty signature, both return normally. -/
theorem no_out_of_range_witness :
    (∃ r : GoResult Slice,
      ComputeDomain Toy.merkle Toy.domainType (some [1, 2, 3, 4, 5, 6]) (some []) = some r) ∧
    (∃ s : SignatureSet Byte,
      some { Signatures := [some []], PublicKeys := [(7 : Byte)],
             Messages := [Toy.signingRoot] } = some s ∧
      s.Signatures[0]? ≠ none ∧ s.PublicKeys[0]? ≠ none ∧ s.Messages[0]? ≠ none) :=
  ⟨(no_out_of_range Toy.merkle Toy.bls).1 Toy.domainType (some [1, 2, 3, 4, 5, 6]) (some []),
   (no_out_of_range Toy.merkle Toy.bls).2.2.1 (some [7]) (some []) Toy.domain32
      (Toy.object 5).HashTreeRoot _ rfl⟩

/-! ### Domain separation -/

/-- C12: domains of different purposes never coincide. When `ComputeDomain` succeeds on
`(d₁, v, g)` and gives the same result on `(d₂, v, g)`, then `d₁ = d₂`, because the first
4 bytes of the domain are the domain type. -/
theorem ComputeDomain_injective (M : Merkle) (d₁ d₂ : FixedBytes 4) (v g : Slice)
    (hok : ∃ dom : Slice, ComputeDomain M d₁ v g = some (dom, none))
    (heq : ComputeDomain M d₁ v g = ComputeDomain M d₂ v g) : d₁ = d₂ := by
  obtain ⟨dom, hdom⟩ := hok
  rw [ComputeDomain_eq] at heq hdom
  rw [ComputeDomain_eq] at heq
  rcases hF : M.forkDataHashTreeRoot
      (copy (FixedBytes.zero 4) (if v = none then M.GenesisForkVersion else v)).slice
      (if g = none then ZeroHash.slice else g) with ⟨r, _ | e⟩
  · rw [hF] at heq
    simp only [Option.some.injEq, Prod.mk.injEq, and_true] at heq
    have h1 : d₁.val.length = d₂.val.length := by rw [d₁.property, d₂.property]
    exact Subtype.ext (List.append_inj_left heq h1)
  · rw [hF] at hdom
    simp at hdom

/-- Witness of C12 on the concrete instance: the hypotheses hold for the domain type
`0x01000000` taken twice, and the domain types `0x01000000` and `0x02000000` give
different domains under the same fork version and root. -/
theorem ComputeDomain_injective_witness :
    (∃ dom : Slice,
      ComputeDomain Toy.merkle Toy.domainType Toy.forkVersion.slice none = some (dom, none)) ∧
    Toy.domainType = ⟨[1, 0, 0, 0], rfl⟩ ∧
    ComputeDomain Toy.merkle Toy.domainType Toy.forkVersion.slice none
      ≠ ComputeDomain Toy.merkle Toy.otherDomainType Toy.forkVersion.slice none :=
  ⟨⟨_, rfl⟩,
   ComputeDomain_injective Toy.merkle Toy.domainType ⟨[1, 0, 0, 0], rfl⟩
      Toy.forkVersion.slice none ⟨_, rfl⟩ rfl,
   fun h => absurd
    (ComputeDomain_injective Toy.merkle Toy.domainType Toy.otherDomainType
      Toy.forkVersion.slice none ⟨_, rfl⟩ h) (by decide)⟩

/-! ### The outcomes of the three verification entry points -/

/-- C13, as stated, fails: with a key and a signature that both decode, an object whose
merkleization fails makes `VerifySigningRoot` and `VerifyBlockSigningRoot` return the
wrapped root error, which is not nil, not a decode error and not `ErrSigFailedToVerify`;
and an index out of range makes `ComputeDomainVerifySigningRoot` return the lookup
error. -/
theorem verify_outcome_beyond_three :
    Toy.bls.PublicKeyFromBytes (some [7]) = .ok 7 ∧
    Toy.bls.SignatureFromBytes Toy.signature
      = .ok (7, List.replicate 16 5 ++ ([1, 0, 0, 0] ++ List.replicate 12 0)) ∧
    VerifySigningRoot Toy.merkle Toy.bls Toy.badObject (some [7]) Toy.signature Toy.domain32
      = some (.Wrap (.other "object: invalid structure") "could not compute signing root") ∧
    VerifyBlockSigningRoot Toy.merkle Toy.bls (some [7]) Toy.signature Toy.domain32
        Toy.badObject.HashTreeRoot
      = some (some (.Wrap (.other "object: invalid structure")
          "could not compute signing root")) ∧
    ComputeDomainVerifySigningRoot Toy.merkle Toy.bls Toy.Domain Toy.state 5 0 (Toy.object 5)
        Toy.domainType Toy.signature
      = some (.other "index out of range") ∧
    ¬ (∀ (obj : HashRoot) (pub sig dom : Slice),
        VerifySigningRoot Toy.merkle Toy.bls obj pub sig dom = none ∨
        VerifySigningRoot Toy.merkle Toy.bls obj pub sig dom = some .ErrSigFailedToVerify ∨
        (∃ e, Toy.bls.PublicKeyFromBytes pub = .error e) ∨
        (∃ e, Toy.bls.SignatureFromBytes sig = .error e)) := by
  refine ⟨rfl, rfl, by decide, by decide, by decide, ?_⟩
  intro h
  rcases h Toy.badObject (some [7]) Toy.signature Toy.domain32 with h | h | ⟨e, h⟩ | ⟨e, h⟩
  · revert h; decide
  · revert h; decide
  · cases h
  · cases h

/-- C13, amended: `VerifySigningRoot` returns exactly one of nil, the wrapped key decode
error, the wrapped signature decode error, the root computation error wrapped with
"could not compute signing root", or `ErrSigFailedToVerify`; `VerifyBlockSigningRoot`
returns one of the same five, its signature decode error not wrapped; and
`ComputeDomainVerifySigningRoot` returns the validator lookup error, or the error of
`Domain`, or else what `VerifySigningRoot` returns on the validator's key. -/
theorem verify_outcomes {Fork SecretKey PublicKey Signature : Type} (M : Merkle)
    (B : BLS SecretKey PublicKey Signature) (obj : HashRoot) (pub sig dom : Slice) :
    (VerifySigningRoot M B obj pub sig dom = none ∨
      (∃ e, B.PublicKeyFromBytes pub = .error e ∧ VerifySigningRoot M B obj pub sig dom
        = some (.Wrap (.bls e) "could not convert bytes to public key")) ∨
      (∃ e, B.SignatureFromBytes sig = .error e ∧ VerifySigningRoot M B obj pub sig dom
        = some (.Wrap (.bls e) "could not convert bytes to signature")) ∨
      (∃ r err, ComputeSigningRoot M obj dom = (r, some err) ∧
        VerifySigningRoot M B obj pub sig dom
          = some (.Wrap err "could not compute signing root")) ∨
      VerifySigningRoot M B obj pub sig dom = some .ErrSigFailedToVerify) ∧
    (VerifyBlockSigningRoot M B pub sig dom obj.HashTreeRoot = some none ∨
      (∃ e, B.PublicKeyFromBytes pub = .error e ∧
        VerifyBlockSigningRoot M B pub sig dom obj.HashTreeRoot
          = some (some (.Wrap (.bls e) "could not convert bytes to public key"))) ∨
      (∃ e, B.SignatureFromBytes sig = .error e ∧
        VerifyBlockSigningRoot M B pub sig dom obj.HashTreeRoot = some (some (.bls e))) ∨
      (∃ r err, signingData M obj.HashTreeRoot dom = (r, some err) ∧
        VerifyBlockSigningRoot M B pub sig dom obj.HashTreeRoot
          = some (some (.Wrap err "could not compute signing root"))) ∨
      VerifyBlockSigningRoot M B pub sig dom obj.HashTreeRoot
        = some (some .ErrSigFailedToVerify)) ∧
    (∀ (Domain : DomainFn Fork) (st : ReadOnlyBeaconState Fork) (i epoch : Nat)
      (domainType : FixedBytes 4),
      (∃ e, st.ValidatorAtIndex i = .error e ∧
        ComputeDomainVerifySigningRoot M B Domain st i epoch obj domainType sig = some e) ∨
      (∃ d e, Domain st.Fork epoch domainType st.GenesisValidatorRoot = (d, some e) ∧
        ComputeDomainVerifySigningRoot M B Domain st i epoch obj domainType sig = some e) ∨
      (∃ v d, st.ValidatorAtIndex i = .ok v ∧
        Domain st.Fork epoch domainType st.GenesisValidatorRoot = (d, none) ∧
        ComputeDomainVerifySigningRoot M B Domain st i epoch obj domainType sig
          = VerifySigningRoot M B obj v.PublicKey sig d)) := by
  refine ⟨?_, ?_, ?_⟩
  · unfold VerifySigningRoot
    rcases hP : B.PublicKeyFromBytes pub with e | pk
    · simp
    · rcases hS : B.SignatureFromBytes sig with e | sg
      · simp
      · rcases hR : ComputeSigningRoot M obj dom with ⟨root, _ | err⟩
        · cases hV : B.Verify sg pk root.slice <;> simp [hV]
        · simp
  · unfold VerifyBlockSigningRoot BlockSignatureSet
    rcases hP : B.PublicKeyFromBytes pub with e | pk
    · simp
    · rcases hR : signingData M obj.HashTreeRoot dom with ⟨root, _ | err⟩
      · rcases hS : B.SignatureFromBytes sig with e | sg
        · simp [hS]
        · cases hV : B.Verify sg pk root.slice <;> simp [hS, hV]
      · simp
  · intro Domain st i epoch domainType
    unfold ComputeDomainVerifySigningRoot
    rcases hV : st.ValidatorAtIndex i with e | v
    · simp
    · rcases hD : Domain st.Fork epoch domainType st.GenesisValidatorRoot with ⟨d, _ | e⟩
      · simp
      · simp

/-! ### Propagation of a merkleization failure -/

/-- C14, as stated, fails: the object's root function fails with the error
"object: invalid structure" while key and signature decode, and `VerifySigningRoot`,
`VerifyBlockHeaderSigningRoot`, `BlockSignatureSet` and `VerifyBlockSigningRoot` return
that error wrapped with "could not compute signing root", not the error itself. -/
theorem root_error_is_wrapped :
    Toy.badObject.HashTreeRoot () = (FixedBytes.zero 32, some (.other "object: invalid structure")) ∧
    VerifySigningRoot Toy.merkle Toy.bls Toy.badObject (some [7]) Toy.signature Toy.domain32
      = some (.Wrap (.other "object: invalid structure") "could not compute signing root") ∧
    VerifySigningRoot Toy.merkle Toy.bls Toy.badObject (some [7]) Toy.signature Toy.domain32
      ≠ some (.other "object: invalid structure") ∧
    VerifyBlockHeaderSigningRoot Toy.merkle Toy.bls Toy.badObject (some [7]) Toy.signature
        Toy.domain32
      ≠ some (.other "object: invalid structure") ∧
    (BlockSignatureSet Toy.merkle Toy.bls (some [7]) Toy.signature Toy.domain32
        Toy.badObject.HashTreeRoot).2
      ≠ some (.other "object: invalid structure") ∧
    VerifyBlockSigningRoot Toy.merkle Toy.bls (some [7]) Toy.signature Toy.domain32
        Toy.badObject.HashTreeRoot
      ≠ some (some (.other "object: invalid structure")) := by
  refine ⟨rfl, ?_, ?_, ?_, ?_, ?_⟩ <;> decide

/-- C14, amended: when the object's root function or the `SigningData` merkleization
fails with error `e`, `signingData` and `ComputeSigningRoot` return exactly `e`, and so
does `ComputeDomainAndSign` once `Domain` has succeeded; `VerifySigningRoot` and
`VerifyBlockHeaderSigningRoot` (key and signature decoded), `BlockSignatureSet` and
`VerifyBlockSigningRoot` (key decoded) return `e` wrapped with the context
"could not compute signing root", so `e` is the cause of the error they return. -/
theorem root_error_propagation {Fork SecretKey PublicKey Signature : Type} (M : Merkle)
    (B : BLS SecretKey PublicKey Signature) (obj : HashRoot) (dom : Slice) (e : Error) :
    (∀ r, obj.HashTreeRoot () = (r, some e) → (ComputeSigningRoot M obj dom).2 = some e) ∧
    (∀ r r', obj.HashTreeRoot () = (r, none) →
      M.signingDataHashTreeRoot r.slice dom = (r', some e) →
      (ComputeSigningRoot M obj dom).2 = some e) ∧
    (∀ r, ComputeSigningRoot M obj dom = (r, some e) →
      signingData M obj.HashTreeRoot dom = (r, some e) ∧
      (∀ (Domain : DomainFn Fork) (st : ReadOnlyBeaconState Fork) (epoch : Nat)
        (domainType : FixedBytes 4) (sk : SecretKey),
        Domain st.Fork epoch domainType st.GenesisValidatorRoot = (dom, none) →
        ComputeDomainAndSign M B Domain st epoch obj domainType sk = (none, some e)) ∧
      (∀ (pub sig : Slice) (pk : PublicKey),
        B.PublicKeyFromBytes pub = .ok pk →
        BlockSignatureSet M B pub sig dom obj.HashTreeRoot
          = (none, some (.Wrap e "could not compute signing root")) ∧
        VerifyBlockSigningRoot M B pub sig dom obj.HashTreeRoot
          = some (some (.Wrap e "could not compute signing root")) ∧
        ∀ sg : Signature, B.SignatureFromBytes sig = .ok sg →
          VerifySigningRoot M B obj pub sig dom
            = some (.Wrap e "could not compute signing root") ∧
          VerifyBlockHeaderSigningRoot M B obj pub sig dom
            = some (.Wrap e "could not compute signing root"))) := by
  refine ⟨?_, ?_, ?_⟩
  · intro r h
    simp [ComputeSigningRoot, signingData, h]
  · intro r r' h h'
    simp [ComputeSigningRoot, signingData, h, h']
  · intro r h
    have h' : signingData M obj.HashTreeRoot dom = (r, some e) := h
    refine ⟨h', ?_, ?_⟩
    · intro Domain st epoch domainType sk hD
      simp [ComputeDomainAndSign, hD, h]
    · intro pub sig pk hP
      refine ⟨?_, ?_, ?_⟩
      · simp [BlockSignatureSet, hP, h']
      · simp [VerifyBlockSigningRoot, BlockSignatureSet, hP, h']
      · intro sg hS
        constructor
        · simp [VerifySigningRoot, hP, hS, h]
        · simp [VerifyBlockHeaderSigningRoot, hP, hS, h']

/-- The amended C14 on the concrete instance: `ComputeSigningRoot` returns the error of
the failing object as it is, and `ComputeDomainAndSign` does too. -/
theorem root_error_propagation_witness :
    (ComputeSigningRoot Toy.merkle Toy.badObject Toy.domain32).2
      = some (.other "object: invalid structure") ∧
    ComputeDomainAndSign Toy.merkle Toy.bls Toy.Domain Toy.state 0 Toy.badObject
        Toy.domainType (7 : Byte)
      = (none, some (.other "object: invalid structure")) :=
  ⟨(@root_error_propagation Slice Byte Byte (Byte × List Byte) Toy.merkle Toy.bls
      Toy.badObject Toy.domain32 (.other "object: invalid structure")).1 _ rfl,
   ((@root_error_propagation Slice Byte Byte (Byte × List Byte) Toy.merkle Toy.bls
      Toy.badObject Toy.domain32 (.other "object: invalid structure")).2.2
        (FixedBytes.zero 32) rfl).2.1 Toy.Domain Toy.state 0 Toy.domainType 7 rfl⟩

/-! ### Cross-domain replay -/

theorem zipWith_add_left_cancel (r : List Byte) :
    ∀ d d' : List Byte, d.length = r.length → d'.length = r.length →
      List.zipWith (fun x y => x + y) r d = List.zipWith (fun x y => x + y) r d' → d = d' := by
  induction r with
  | nil =>
    intro d d' h h' _
    rw [List.length_eq_zero.mp h, List.length_eq_zero.mp h']
  | cons a r ih =>
    intro d d' h h' hz
    cases d with
    | nil => simp at h
    | cons b d =>
      cases d' with
      | nil => simp at h'
      | cons b' d' =>
        simp only [List.zipWith_cons_cons, List.cons.injEq] at hz
        simp only [List.length_cons, Nat.add_right_cancel_iff] at h h'
        rw [add_left_cancel hz.1, ih d d' h h' hz.2]

/-- The `SigningData` merkleization of `Toy.sumMerkle` is collision-free in the domain. -/
theorem sumMerkle_separates (r : FixedBytes 32) (d d' : Slice) (x x' : FixedBytes 32)
    (h : Toy.sumMerkle.signingDataHashTreeRoot r.slice d = (x, none))
    (h' : Toy.sumMerkle.signingDataHashTreeRoot r.slice d' = (x', none))
    (hne : d ≠ d') : x ≠ x' := by
  intro hx
  apply hne
  have hr : r.val.length = 32 := r.property
  simp only [Toy.sumMerkle, FixedBytes.slice, Slice.bytes] at h h'
  cases d with
  | none => simp [Slice.bytes] at h
  | some bs =>
    cases d' with
    | none => simp [Slice.bytes] at h'
    | some bs' =>
      simp only [Slice.bytes] at h h'
      by_cases hl : bs.length = 32
      · by_cases hl' : bs'.length = 32
        · simp only [hr, hl, hl', and_self, dite_true, Prod.mk.injEq, and_true] at h h'
          have hv : List.zipWith (fun x y => x + y) r.val bs
              = List.zipWith (fun x y => x + y) r.val bs' := by
            have e1 := congrArg Subtype.val h
            have e2 := congrArg Subtype.val h'
            simp only at e1 e2
            rw [e1, e2, hx]
          rw [zipWith_add_left_cancel r.val bs bs' (by omega) (by omega) hv]
        · simp [hr, hl'] at h'
      · simp [hr, hl] at h

/-- C15, as stated, fails: the signature of key 7 over the signing root of `object 5`
under `domain32` is checked under the empty domain, which differs from `domain32`. The
signing root under the empty domain does not compute, and `VerifySigningRoot` returns the
wrapped root error, which is not `ErrSigFailedToVerify`. -/
theorem cross_domain_not_always_rejected :
    Toy.bls.SignatureMarshal (Toy.bls.Sign (7 : Byte)
        (ComputeSigningRoot Toy.merkle (Toy.object 5) Toy.domain32).1.slice) = Toy.signature ∧
    Toy.domain32 ≠ some [] ∧
    VerifySigningRoot Toy.merkle Toy.bls (Toy.object 5)
        (Toy.bls.PublicKeyMarshal (Toy.bls.PublicKey (7 : Byte))) Toy.signature (some [])
      = some (.Wrap (.other "SigningData: wrong field length")
          "could not compute signing root") ∧
    VerifySigningRoot Toy.merkle Toy.bls (Toy.object 5)
        (Toy.bls.PublicKeyMarshal (Toy.bls.PublicKey (7 : Byte))) Toy.signature (some [])
      ≠ some .ErrSigFailedToVerify := by
  refine ⟨by decide, by decide, by decide, by decide⟩

/-- C15, amended: take collaborators that are free of collisions: a `SigningData`
merkleization that never gives one root to two different domains under the same object
root, and a BLS primitive that gives back a marshalled key or signature on decoding and
refuses a signature made over one root when it is checked against another root. Then for
every object, secret key and two different domains `A` and `B`, with the signing root
computing under `A`, the signature made with `sk` over `ComputeSigningRoot(obj, A)` is
never accepted by `VerifySigningRoot` under `B`: it returns `ErrSigFailedToVerify` when
the signing root under `B` computes, and the wrapped root error when it does not. -/
theorem cross_domain_rejected {SecretKey PublicKey Signature : Type} (M : Merkle)
    (B : BLS SecretKey PublicKey Signature) (obj : HashRoot) (sk : SecretKey)
    (domA domB : Slice) (rA : FixedBytes 32)
    (hsig : ∀ sg : Signature, B.SignatureFromBytes (B.SignatureMarshal sg) = .ok sg)
    (hpub : ∀ pk : PublicKey, B.PublicKeyFromBytes (B.PublicKeyMarshal pk) = .ok pk)
    (hsound : ∀ (key : SecretKey) (r r' : FixedBytes 32), r ≠ r' →
      B.Verify (B.Sign key r.slice) (B.PublicKey key) r'.slice = false)
    (hinj : ∀ (r : FixedBytes 32) (d d' : Slice) (x x' : FixedBytes 32),
      M.signingDataHashTreeRoot r.slice d = (x, none) →
      M.signingDataHashTreeRoot r.slice d' = (x', none) → d ≠ d' → x ≠ x')
    (hA : ComputeSigningRoot M obj domA = (rA, none))
    (hne : domA ≠ domB) :
    VerifySigningRoot M B obj (B.PublicKeyMarshal (B.PublicKey sk))
        (B.SignatureMarshal (B.Sign sk (ComputeSigningRoot M obj domA).1.slice)) domB
      ≠ none ∧
    (∀ rB : FixedBytes 32, ComputeSigningRoot M obj domB = (rB, none) →
      VerifySigningRoot M B obj (B.PublicKeyMarshal (B.PublicKey sk))
          (B.SignatureMarshal (B.Sign sk (ComputeSigningRoot M obj domA).1.slice)) domB
        = some .ErrSigFailedToVerify) ∧
    (∀ (rB : FixedBytes 32) (err : Error), ComputeSigningRoot M obj domB = (rB, some err) →
      VerifySigningRoot M B obj (B.PublicKeyMarshal (B.PublicKey sk))
          (B.SignatureMarshal (B.Sign sk (ComputeSigningRoot M obj domA).1.slice)) domB
        = some (.Wrap err "could not compute signing root")) := by
  have hrej : ∀ rB : FixedBytes 32, ComputeSigningRoot M obj domB = (rB, none) →
      VerifySigningRoot M B obj (B.PublicKeyMarshal (B.PublicKey sk))
          (B.SignatureMarshal (B.Sign sk (ComputeSigningRoot M obj domA).1.slice)) domB
        = some .ErrSigFailedToVerify := by
    intro rB hB
    have hroots : rA ≠ rB := by
      have hA' := hA
      have hB' := hB
      unfold ComputeSigningRoot signingData at hA' hB'
      rcases hO : obj.HashTreeRoot () with ⟨ro, _ | e⟩
      · rw [hO] at hA' hB'
        exact hinj ro domA domB rA rB hA' hB' hne
      · rw [hO] at hA'
        simp at hA'
    unfold VerifySigningRoot
    rw [hpub, hsig, hB, hA]
    simp [hsound sk rA rB hroots]
  have herr : ∀ (rB : FixedBytes 32) (err : Error),
      ComputeSigningRoot M obj domB = (rB, some err) →
      VerifySigningRoot M B obj (B.PublicKeyMarshal (B.PublicKey sk))
          (B.SignatureMarshal (B.Sign sk (ComputeSigningRoot M obj domA).1.slice)) domB
        = some (.Wrap err "could not compute signing root") := by
    intro rB err hB
    unfold VerifySigningRoot
    rw [hpub, hsig, hB]
  refine ⟨?_, hrej, herr⟩
  rcases hB : ComputeSigningRoot M obj domB with ⟨rB, _ | err⟩
  · rw [hrej rB hB]
    simp
  · rw [herr rB err hB]
    simp

/-- Witness of the amended C15 on the concrete instance with the collision-free
merkleization: the signature of key 7 over `object 5` under `domain32` is refused under
`otherDomain32` with `ErrSigFailedToVerify`, and under the empty domain with the wrapped
root error. -/
theorem cross_domain_rejected_witness :
    ComputeSigningRoot Toy.sumMerkle (Toy.object 5) Toy.domain32 = (Toy.sumSigningRoot, none) ∧
    Toy.domain32 ≠ Toy.otherDomain32 ∧
    VerifySigningRoot Toy.sumMerkle Toy.bls (Toy.object 5)
        (Toy.bls.PublicKeyMarshal (Toy.bls.PublicKey (7 : Byte)))
        (Toy.bls.SignatureMarshal (Toy.bls.Sign (7 : Byte)
          (ComputeSigningRoot Toy.sumMerkle (Toy.object 5) Toy.domain32).1.slice))
        Toy.otherDomain32
      = some .ErrSigFailedToVerify ∧
    VerifySigningRoot Toy.sumMerkle Toy.bls (Toy.object 5)
        (Toy.bls.PublicKeyMarshal (Toy.bls.PublicKey (7 : Byte)))
        (Toy.bls.SignatureMarshal (Toy.bls.Sign (7 : Byte)
          (ComputeSigningRoot Toy.sumMerkle (Toy.object 5) Toy.domain32).1.slice))
        (some [])
      = some (.Wrap (.other "SigningData: wrong field length")
          "could not compute signing root") :=
  have hs : ∀ (key : Byte) (r r' : FixedBytes 32), r ≠ r' →
      Toy.bls.Verify (Toy.bls.Sign key r.slice) (Toy.bls.PublicKey key) r'.slice = false :=
    fun key r r' h => by
      have h' : r.val ≠ r'.val := fun hv => h (Subtype.ext hv)
      simpa [Toy.bls, FixedBytes.slice, Slice.bytes] using h'
  ⟨by decide, by decide,
   (cross_domain_rejected Toy.sumMerkle Toy.bls (Toy.object 5) (7 : Byte) Toy.domain32
      Toy.otherDomain32 Toy.sumSigningRoot (fun _ => rfl) (fun _ => rfl) hs
      sumMerkle_separates (by decide) (by decide)).2.1
      ⟨7 :: List.replicate 31 5, by decide⟩ (by decide),
   (cross_domain_rejected Toy.sumMerkle Toy.bls (Toy.object 5) (7 : Byte) Toy.domain32
      (some []) Toy.sumSigningRoot (fun _ => rfl) (fun _ => rfl) hs
      sumMerkle_separates (by decide) (by decide)).2.2
      (FixedBytes.zero 32) _ (by decide)⟩

/-! ### Nil arguments -/

/-- C16, as stated, fails: `ComputeSigningRoot` on a nil object, and `BlockSignatureSet`
and `VerifyBlockSigningRoot` on a decodable key and a nil root function, do not return
an error value; they fault at run time. -/
theorem nil_argument_faults :
    Nilable.ComputeSigningRoot Toy.merkle none Toy.domain32 = none ∧
    Toy.bls.PublicKeyFromBytes (some [7]) = .ok 7 ∧
    Nilable.BlockSignatureSet Toy.merkle Toy.bls (some [7]) Toy.signature Toy.domain32 none
      = none ∧
    Nilable.VerifyBlockSigningRoot Toy.merkle Toy.bls (some [7]) Toy.signature Toy.domain32
      none = none ∧
    ¬ (∃ (r : FixedBytes 32) (e : Error),
        Nilable.ComputeSigningRoot Toy.merkle none Toy.domain32 = some (r, some e)) := by
  refine ⟨rfl, rfl, rfl, rfl, ?_⟩
  rintro ⟨r, e, h⟩
  cases h

/-- C16, amended: on a non-nil object or root function the operations return normally,
with the result of the source function, and `VerifyBlockSigningRoot` never faults. The
package has no nil check: `ComputeSigningRoot` on a nil object, and `BlockSignatureSet`
and `VerifyBlockSigningRoot` on a decodable key and a nil root function, fault at run
time instead of returning an error. On a key that fails to decode, the latter two return
the wrapped key decode error also when the root function is nil. -/
theorem nil_argument_behaviour {SecretKey PublicKey Signature : Type} (M : Merkle)
    (B : BLS SecretKey PublicKey Signature) (pub sig dom : Slice) :
    Nilable.ComputeSigningRoot M none dom = none ∧
    (∀ pk : PublicKey, B.PublicKeyFromBytes pub = .ok pk →
      Nilable.BlockSignatureSet M B pub sig dom none = none ∧
      Nilable.VerifyBlockSigningRoot M B pub sig dom none = none) ∧
    (∀ e : String, B.PublicKeyFromBytes pub = .error e →
      Nilable.BlockSignatureSet M B pub sig dom none
        = some (none, some (.Wrap (.bls e) "could not convert bytes to public key")) ∧
      Nilable.VerifyBlockSigningRoot M B pub sig dom none
        = some (some (.Wrap (.bls e) "could not convert bytes to public key"))) ∧
    (∀ obj : HashRoot,
      Nilable.ComputeSigningRoot M (some obj) dom = some (ComputeSigningRoot M obj dom)) ∧
    (∀ rootFunc : Unit → GoResult (FixedBytes 32),
      Nilable.BlockSignatureSet M B pub sig dom (some rootFunc)
        = some (BlockSignatureSet M B pub sig dom rootFunc) ∧
      Nilable.VerifyBlockSigningRoot M B pub sig dom (some rootFunc)
        = VerifyBlockSigningRoot M B pub sig dom rootFunc ∧
      ∃ r : Option Error, VerifyBlockSigningRoot M B pub sig dom rootFunc = some r) := by
  have hSD : ∀ f : Unit → GoResult (FixedBytes 32),
      Nilable.signingData M (some f) dom = some (signingData M f dom) := by
    intro f
    unfold Nilable.signingData signingData
    rcases h : f () with ⟨r, _ | e⟩ <;> simp [h]
  have hBS : ∀ f : Unit → GoResult (FixedBytes 32),
      Nilable.BlockSignatureSet M B pub sig dom (some f)
        = some (BlockSignatureSet M B pub sig dom f) := by
    intro f
    unfold Nilable.BlockSignatureSet BlockSignatureSet
    rw [hSD]
    rcases hP : B.PublicKeyFromBytes pub with e | pk
    · simp
    · rcases hR : signingData M f dom with ⟨r, _ | e⟩ <;> simp [hR]
  refine ⟨rfl, ?_, ?_, ?_, ?_⟩
  · intro pk h
    simp [Nilable.VerifyBlockSigningRoot, Nilable.BlockSignatureSet, Nilable.signingData, h]
  · intro e h
    simp [Nilable.VerifyBlockSigningRoot, Nilable.BlockSignatureSet, h]
  · intro obj
    simp [Nilable.ComputeSigningRoot, hSD, ComputeSigningRoot]
  · intro f
    refine ⟨hBS f, ?_, ?_⟩
    · unfold Nilable.VerifyBlockSigningRoot VerifyBlockSigningRoot
      rw [hBS]
      rcases hB : BlockSignatureSet M B pub sig dom f with ⟨_ | set, _ | e⟩ <;> simp [hB]
    · unfold VerifyBlockSigningRoot BlockSignatureSet
      rcases hP : B.PublicKeyFromBytes pub with e | pk
      · exact ⟨_, rfl⟩
      · rcases hR : signingData M f dom with ⟨root, _ | e⟩
        · rcases hS : B.SignatureFromBytes sig with e | sg
          · simp [hS]
          · cases hV : B.Verify sg pk root.slice <;> simp [hS, hV]
        · exact ⟨_, rfl⟩

/-- The amended C16 on the concrete instance: with the key 7, which decodes, a nil root
function makes `BlockSignatureSet` fault; with an empty key it returns the key decode
error. -/
theorem nil_argument_behaviour_witness :
    Nilable.BlockSignatureSet Toy.merkle Toy.bls (some [7]) Toy.signature Toy.domain32 none
      = none ∧
    Nilable.BlockSignatureSet Toy.merkle Toy.bls (some []) Toy.signature Toy.domain32 none
      = some (none, some (.Wrap (.bls "bls: public key must be 1 byte")
          "could not convert bytes to public key")) :=
  ⟨((nil_argument_behaviour Toy.merkle Toy.bls (some [7]) Toy.signature
      Toy.domain32).2.1 7 rfl).1,
   ((nil_argument_behaviour Toy.merkle Toy.bls (some []) Toy.signature
      Toy.domain32).2.2.1 _ rfl).1⟩

/-! ### Empty arguments of ComputeDomain -/

/-- C17: the defaults of `ComputeDomain` apply to nil arguments only. An empty non-nil
fork version gives the result of the zero fork version `[0, 0, 0, 0]`, whatever the
configured genesis fork version is; an empty non-nil genesis validators root goes to the
fork-data merkleization as it is, and not as the 32 zero bytes. -/
theorem ComputeDomain_empty_not_defaulted (M : Merkle) (d : FixedBytes 4) :
    (∀ g : Slice, ComputeDomain M d (some []) g = ComputeDomain M d (some [0, 0, 0, 0]) g) ∧
    (∀ v : Slice, ComputeDomain M d v (some []) =
      match M.forkDataHashTreeRoot
          (copy (FixedBytes.zero 4) (if v = none then M.GenesisForkVersion else v)).slice
          (some []) with
      | (_, some err) => some (none, some err)
      | (r, none) => some (some (d.val ++ r.val.take 28), none)) := by
  constructor
  · intro g
    apply ComputeDomain_congr
    rw [copy_zero_val, copy_zero_val]
    rfl
  · intro v
    rw [ComputeDomain_eq]
    simp

/-- C17 on the concrete instance, whose genesis fork version is `0x00000001`: the empty
fork version gives another domain than the nil one, and the empty root makes the
merkleization fail where the nil root, replaced by the zero hash, succeeds. -/
theorem ComputeDomain_empty_not_defaulted_witness :
    ComputeDomain Toy.merkle Toy.domainType (some []) none
      = ComputeDomain Toy.merkle Toy.domainType (some [0, 0, 0, 0]) none ∧
    ComputeDomain Toy.merkle Toy.domainType (some []) none
      ≠ ComputeDomain Toy.merkle Toy.domainType none none ∧
    ComputeDomain Toy.merkle Toy.domainType Toy.forkVersion.slice (some [])
      = some (none, some (.other "ForkData: wrong field length")) ∧
    ComputeDomain Toy.merkle Toy.domainType Toy.forkVersion.slice none
      = some (some (Toy.domainType.val ++ Toy.forkDataRoot.val.take 28), none) :=
  ⟨(ComputeDomain_empty_not_defaulted Toy.merkle Toy.domainType).1 none,
   by decide, by decide, by decide⟩

/-! ### The signature bytes in a signature set -/

/-- C18: `BlockSignatureSet` never decodes the signature bytes. When the key decodes and
the signing root computes, it succeeds on every signature byte string and returns those
bytes as `Signatures[0]`. `VerifyBlockSigningRoot` reports a key that fails to decode, then
a signing root that fails to compute, and only then a malformed signature, as the decode
error of the primitive without the context "could not convert bytes to signature" that
`VerifySigningRoot` puts around it. -/
theorem BlockSignatureSet_keeps_signature {SecretKey PublicKey Signature : Type}
    (M : Merkle) (B : BLS SecretKey PublicKey Signature) (pub dom : Slice)
    (rootFunc : Unit → GoResult (FixedBytes 32)) :
    (∀ (pk : PublicKey) (root : FixedBytes 32), B.PublicKeyFromBytes pub = .ok pk →
      signingData M rootFunc dom = (root, none) →
      ∀ signature : Slice,
        BlockSignatureSet M B pub signature dom rootFunc
          = (some { Signatures := [signature], PublicKeys := [pk], Messages := [root] },
              none) ∧
        ∀ e : String, B.SignatureFromBytes signature = .error e →
          VerifyBlockSigningRoot M B pub signature dom rootFunc = some (some (.bls e)) ∧
          VerifySigningRoot M B { HashTreeRoot := rootFunc } pub signature dom
            = some (.Wrap (.bls e) "could not convert bytes to signature")) ∧
    (∀ (signature : Slice) (e : String), B.PublicKeyFromBytes pub = .error e →
      VerifyBlockSigningRoot M B pub signature dom rootFunc
        = some (some (.Wrap (.bls e) "could not convert bytes to public key"))) ∧
    (∀ (signature : Slice) (pk : PublicKey) (root : FixedBytes 32) (err : Error),
      B.PublicKeyFromBytes pub = .ok pk → signingData M rootFunc dom = (root, some err) →
      VerifyBlockSigningRoot M B pub signature dom rootFunc
        = some (some (.Wrap err "could not compute signing root"))) := by
  refine ⟨?_, ?_, ?_⟩
  · intro pk root hP hR signature
    refine ⟨by simp [BlockSignatureSet, hP, hR], ?_⟩
    intro e hS
    constructor
    · simp [VerifyBlockSigningRoot, BlockSignatureSet, hP, hR, hS]
    · simp [VerifySigningRoot, hP, hS]
  · intro signature e hP
    simp [VerifyBlockSigningRoot, BlockSignatureSet, hP]
  · intro signature pk root err hP hR
    simp [VerifyBlockSigningRoot, BlockSignatureSet, hP, hR]

/-- C18 on the concrete instance: under key 7 and `object 5` the empty signature is kept
in the set, and `VerifyBlockSigningRoot` returns its bare decode error. -/
theorem BlockSignatureSet_keeps_signature_witness :
    BlockSignatureSet Toy.merkle Toy.bls (some [7]) (some []) Toy.domain32
        (Toy.object 5).HashTreeRoot
      = (some { Signatures := [some []], PublicKeys := [(7 : Byte)],
                Messages := [Toy.signingRoot] }, none) ∧
    VerifyBlockSigningRoot Toy.merkle Toy.bls (some [7]) (some []) Toy.domain32
        (Toy.object 5).HashTreeRoot
      = some (some (.bls "bls: signature must not be empty")) :=
  have h := (BlockSignatureSet_keeps_signature Toy.merkle Toy.bls (some [7]) Toy.domain32
    (Toy.object 5).HashTreeRoot).1 7 Toy.signingRoot rfl (by decide) (some [])
  ⟨h.1, (h.2 _ rfl).1⟩

end Signing

namespace Powchain

/-! ### The metrics collector -/

/-- C19: for every collector and the latest stats it holds, `Collect` emits exactly three
metrics, all gauges: one for `SyncEth1FallbackConfigured`, one for
`SyncEth1FallbackConnected` and one for `SyncEth1Connected`, each of value 1 when the
boolean of the latest stats is true and 0 when it is false. The descriptors `Describe`
emits are the descriptors of the metrics `Collect` emits, each once, in another order;
the three descriptors of the collector made by `NewPowchainCollector` are distinct,
whatever stats it has received. -/
theorem Collect_three_gauges {Desc : Type} (pc : PowchainCollector Desc) :
    pc.Collect =
      [ { desc := pc.SyncEth1FallbackConfigured, valueType := .GaugeValue,
          value := if pc.latestStats.SyncEth1FallbackConfigured = true then 1 else 0 },
        { desc := pc.SyncEth1FallbackConnected, valueType := .GaugeValue,
          value := if pc.latestStats.SyncEth1FallbackConnected = true then 1 else 0 },
        { desc := pc.SyncEth1Connected, valueType := .GaugeValue,
          value := if pc.latestStats.SyncEth1Connected = true then 1 else 0 } ] ∧
    pc.Collect.length = 3 ∧
    (∀ m ∈ pc.Collect, m.valueType = .GaugeValue) ∧
    pc.Describe.length = 3 ∧
    List.Perm pc.Describe (pc.Collect.map (fun m => m.desc)) ∧
    (∀ d : Desc, d ∈ pc.Describe ↔ d ∈ pc.Collect.map (fun m => m.desc)) ∧
    (∀ bs : BeaconNodeStats, (NewPowchainCollector.setLatestStats bs).Describe.Nodup) := by
  have hC : pc.Collect =
      [ { desc := pc.SyncEth1FallbackConfigured, valueType := .GaugeValue,
          value := if pc.latestStats.SyncEth1FallbackConfigured = true then 1 else 0 },
        { desc := pc.SyncEth1FallbackConnected, valueType := .GaugeValue,
          value := if pc.latestStats.SyncEth1FallbackConnected = true then 1 else 0 },
        { desc := pc.SyncEth1Connected, valueType := .GaugeValue,
          value := if pc.latestStats.SyncEth1Connected = true then 1 else 0 } ] := rfl
  have hD : pc.Describe =
      [pc.SyncEth1Connected, pc.SyncEth1FallbackConfigured, pc.SyncEth1FallbackConnected] :=
    rfl
  have hP : List.Perm
      [pc.SyncEth1Connected, pc.SyncEth1FallbackConfigured, pc.SyncEth1FallbackConnected]
      [pc.SyncEth1FallbackConfigured, pc.SyncEth1FallbackConnected, pc.SyncEth1Connected] :=
    (List.perm_append_comm :
      List.Perm ([pc.SyncEth1Connected]
          ++ [pc.SyncEth1FallbackConfigured, pc.SyncEth1FallbackConnected])
        ([pc.SyncEth1FallbackConfigured, pc.SyncEth1FallbackConnected]
          ++ [pc.SyncEth1Connected]))
  have hN : NewPowchainCollector.Describe.Nodup := by decide
  refine ⟨hC, by rw [hC]; rfl, ?_, by rw [hD]; rfl, ?_, ?_, fun _ => hN⟩
  · intro m hm
    rw [hC] at hm
    simp only [List.mem_cons, List.mem_singleton, List.not_mem_nil, or_false] at hm
    rcases hm with h | h | h <;> rw [h]
  · rw [hC, hD]
    exact hP
  · intro d
    rw [hC, hD]
    exact hP.mem_iff

/-- C19 on the collector made by `NewPowchainCollector`, after an update that reports a
configured and unconnected fallback and a connected endpoint. -/
theorem Collect_three_gauges_witness :
    (NewPowchainCollector.setLatestStats
        { SyncEth1Connected := true, SyncEth1FallbackConfigured := true,
          SyncEth1FallbackConnected := false }).Collect.map (fun m => (m.desc.fqName, m.value))
      = [("powchain_sync_eth1_fallback_configured", 1),
         ("powchain_sync_eth1_fallback_connected", 0),
         ("powchain_sync_eth1_connected", 1)] ∧
    NewPowchainCollector.Collect.map (fun m => m.value) = [0, 0, 0] ∧
    (NewPowchainCollector.setLatestStats
        { SyncEth1Connected := true, SyncEth1FallbackConfigured := true,
          SyncEth1FallbackConnected := false }).Collect.length = 3 :=
  ⟨by decide, by decide,
   (Collect_three_gauges (NewPowchainCollector.setLatestStats
      { SyncEth1Connected := true, SyncEth1FallbackConfigured := true,
        SyncEth1FallbackConnected := false })).2.1⟩

end Powchain
